import Mathlib

/-!
# Jupii content server: PulseAudio capture source and content-server constants

A shallow embedding of `src/core/pulseaudiosource.cpp` and of the constants and
records declared in `src/core/contentserver.h`.

* The static fields of `PulseAudioSource` (and the `iterationTimer` member) form
  the record `PulseAudioSource`; every member function is a pure function on it.
* Pointers are `Option Handle`, `none` being `nullptr`.
* Calls into libpulse and into `ContentServerWorker` are recorded, in program
  order, as a list of `Effect`s next to the new state.  What libpulse answers
  (new handles, return codes, the callbacks it dispatches) is an explicit
  argument of the function that asks.
* The `SAILFISH` and `QT_DEBUG` preprocessor switches are the two fields of `Build`.
* `qDebug()` / `qWarning()` logging is not modelled.
-/

namespace Jupii

/-! ## ContentServer (contentserver.h) -/

namespace ContentServer

/-- Media category, `enum Type` of contentserver.h. -/
inductive Type_ where
  | TypeUnknown
  | TypeImage
  | TypeMusic
  | TypeVideo
  | TypeDir
  | TypePlaylist
  deriving DecidableEq, Repr

/-- Numeric value of each `enum Type` member. -/
def Type_.toNat : Type_ → Nat
  | .TypeUnknown => 0
  | .TypeImage => 1
  | .TypeMusic => 2
  | .TypeVideo => 4
  | .TypeDir => 128
  | .TypePlaylist => 256

/-- Record `struct ItemMeta` with its default member initialisers; `QString` and
`QUrl` members are default-constructed (empty), the two `double` members are
rationals. -/
structure ItemMeta where
  valid : Bool := false
  trackerId : String := ""
  url : String := ""
  path : String := ""
  filename : String := ""
  title : String := ""
  mime : String := ""
  comment : String := ""
  album : String := ""
  albumArt : String := ""
  artist : String := ""
  type : Type_ := Type_.TypeUnknown
  local_ : Bool := true
  seekSupported : Bool := true
  duration : Int := 0
  bitrate : Rat := 0
  sampleRate : Rat := 0
  channels : Int := 0
  size : Int := 0
  deriving DecidableEq

/-- A default-constructed `ItemMeta` (what `QHash<QUrl, ItemMeta>` creates for a
new key). -/
def ItemMeta.fresh : ItemMeta := {}

/-- Constant `micSampleRate`. -/
def micSampleRate : Int := 44100
/-- Constant `micChannelCount`. -/
def micChannelCount : Int := 1
/-- Constant `micSampleSize`. -/
def micSampleSize : Int := 16
/-- Constant `maxRedirections`. -/
def maxRedirections : Int := 5
/-- Constant `httpTimeout`, in milliseconds. -/
def httpTimeout : Int := 10000

/-- The members of `enum DLNA_ORG_FLAGS`. -/
inductive DLNA_ORG_FLAGS where
  | DLNA_ORG_FLAG_NONE
  | DLNA_ORG_FLAG_SENDER_PACED
  | DLNA_ORG_FLAG_TIME_BASED_SEEK
  | DLNA_ORG_FLAG_BYTE_BASED_SEEK
  | DLNA_ORG_FLAG_PLAY_CONTAINER
  | DLNA_ORG_FLAG_S0_INCREASE
  | DLNA_ORG_FLAG_SN_INCREASE
  | DLNA_ORG_FLAG_RTSP_PAUSE
  | DLNA_ORG_FLAG_STREAMING_TRANSFER_MODE
  | DLNA_ORG_FLAG_INTERACTIVE_TRANSFERT_MODE
  | DLNA_ORG_FLAG_BACKGROUND_TRANSFER_MODE
  | DLNA_ORG_FLAG_CONNECTION_STALL
  | DLNA_ORG_FLAG_DLNA_V15
  deriving DecidableEq, Repr

/-- The expression `(1 << k)` in `int` (32 bits, two's complement): 2^k, wrapped
into the range of `int`. -/
def shiftLeftOne (k : Nat) : Int :=
  if 2 ^ k % 4294967296 < 2147483648 then ((2 ^ k % 4294967296 : Nat) : Int)
  else ((2 ^ k % 4294967296 : Nat) : Int) - 4294967296

/-- The value of each `enum DLNA_ORG_FLAGS` member, as declared. -/
def DLNA_ORG_FLAGS.toInt : DLNA_ORG_FLAGS → Int
  | .DLNA_ORG_FLAG_NONE => 0
  | .DLNA_ORG_FLAG_SENDER_PACED => shiftLeftOne 31
  | .DLNA_ORG_FLAG_TIME_BASED_SEEK => shiftLeftOne 30
  | .DLNA_ORG_FLAG_BYTE_BASED_SEEK => shiftLeftOne 29
  | .DLNA_ORG_FLAG_PLAY_CONTAINER => shiftLeftOne 28
  | .DLNA_ORG_FLAG_S0_INCREASE => shiftLeftOne 27
  | .DLNA_ORG_FLAG_SN_INCREASE => shiftLeftOne 26
  | .DLNA_ORG_FLAG_RTSP_PAUSE => shiftLeftOne 25
  | .DLNA_ORG_FLAG_STREAMING_TRANSFER_MODE => shiftLeftOne 24
  | .DLNA_ORG_FLAG_INTERACTIVE_TRANSFERT_MODE => shiftLeftOne 23
  | .DLNA_ORG_FLAG_BACKGROUND_TRANSFER_MODE => shiftLeftOne 22
  | .DLNA_ORG_FLAG_CONNECTION_STALL => shiftLeftOne 21
  | .DLNA_ORG_FLAG_DLNA_V15 => shiftLeftOne 20

/-- The 32-bit pattern of a member: its value modulo 2^32. -/
def DLNA_ORG_FLAGS.bits (f : DLNA_ORG_FLAGS) : Nat :=
  (f.toInt % 4294967296).toNat

/-- The OR-combination `f1 | f2 | ...` of members, as a 32-bit pattern. -/
def orFlags : List DLNA_ORG_FLAGS → Nat
  | [] => 0
  | f :: fs => f.bits ||| orFlags fs

/-- Modelled from the spec: the digits of the `ORG_FLAGS` value written by
`dlnaOrgFlagsForFile` and `dlnaOrgFlagsForStreaming`, whose bodies
(contentserver.cpp) are not part of the sources at hand.  The spec has the
"32-bit flag field rendered as 8 hex digits": the value in base 16, most
significant digit first, padded with zeros on the left to 8 digits. -/
def hexDigits8 (v : Nat) : List Nat :=
  List.replicate (8 - (Nat.digits 16 v).length) 0 ++ (Nat.digits 16 v).reverse

/-- The character of one hexadecimal digit. -/
def hexDigit (d : Nat) : Char :=
  if d < 10 then Char.ofNat (48 + d) else Char.ofNat (87 + d)

/-- Whether a character is a hexadecimal digit. -/
def isHexDigit (c : Char) : Bool :=
  (48 ≤ c.toNat && c.toNat ≤ 57) || (97 ≤ c.toNat && c.toNat ≤ 102) ||
  (65 ≤ c.toNat && c.toNat ≤ 70)

/-- Modelled from the spec: the text of the `ORG_FLAGS` value written by
`dlnaOrgFlagsForFile` and `dlnaOrgFlagsForStreaming` (bodies not part of the
sources at hand): "8 hex digits + 24 zero hex digits". -/
def renderOrgFlags (v : Nat) : List Char :=
  (hexDigits8 v).map hexDigit ++ List.replicate 24 '0'

end ContentServer

/-! ## PulseAudioSource (pulseaudiosource.cpp) -/

/-- Identity of an object handed out by libpulse. -/
abbrev Handle := Nat

/-- Constant `PA_INVALID_INDEX` of libpulse, `((uint32_t) -1)`. -/
def PA_INVALID_INDEX : Nat := 4294967295

/-- Sample formats of libpulse used here. -/
inductive pa_sample_format where
  | PA_SAMPLE_U8
  | PA_SAMPLE_ALAW
  | PA_SAMPLE_ULAW
  | PA_SAMPLE_S16LE
  | PA_SAMPLE_S16BE
  deriving DecidableEq, Repr

/-- Record `pa_sample_spec`: format, rate (uint32_t), channels (uint8_t). -/
structure pa_sample_spec where
  format : pa_sample_format
  rate : Nat
  channels : Nat
  deriving DecidableEq, Repr

/-- Record `PulseAudioSource::Client`, with the members the source file uses. -/
structure Client where
  idx : Nat := 0
  name : String := ""
  binary : String := ""
  icon : String := ""
  deriving DecidableEq, Repr

/-- Record `PulseAudioSource::SinkInput`, with the members the source file uses. -/
structure SinkInput where
  idx : Nat := 0
  clientIdx : Nat := 0
  name : String := ""
  corked : Bool := false
  deriving DecidableEq, Repr

/-- The preprocessor switches the source file depends on. -/
structure Build where
  sailfish : Bool
  qtDebug : Bool
  deriving DecidableEq, Repr

/-! ### QHash<uint32_t, T> as an association list

The iteration order of a `QHash` is unspecified; here it is the list order, and
a key that `operator[]` creates goes to the end. -/

/-- Association list standing for `QHash<uint32_t, T>`. -/
abbrev QHash (α : Type) := List (Nat × α)

/-- Method `QHash::contains`. -/
def QHash.contains {α : Type} (h : QHash α) (k : Nat) : Bool :=
  h.any (fun e => e.1 == k)

/-- Method `QHash::value`: the stored value, or a default-constructed one. -/
def QHash.value {α : Type} (dflt : α) (h : QHash α) (k : Nat) : α :=
  match h.find? (fun e => e.1 == k) with
  | some e => e.2
  | none => dflt

/-- Method `QHash::remove`. -/
def QHash.remove {α : Type} (h : QHash α) (k : Nat) : QHash α :=
  h.filter (fun e => !(e.1 == k))

/-- Assignment through `operator[]`: `f` is applied to the value stored under `k`,
a default-constructed value being inserted first when the key is absent. -/
def QHash.modify {α : Type} (dflt : α) (h : QHash α) (k : Nat) (f : α → α) : QHash α :=
  if QHash.contains h k then
    h.map (fun e => if e.1 == k then (e.1, f e.2) else e)
  else
    h ++ [(k, f dflt)]

/-- Calls that leave `PulseAudioSource`, in program order. -/
inductive Effect where
  | dispatchPulseData (data : Option (List Nat)) (size : Int)
  | updatePulseStreamName (name : String)
  | iterationTimerStart
  | pa_stream_new (ctx : Option Handle) (spec : pa_sample_spec) (result : Option Handle)
  | pa_stream_set_read_callback (stream : Option Handle)
  | pa_stream_set_monitor_stream (stream : Option Handle) (si : Nat)
  | pa_stream_connect_record (stream : Option Handle)
  | pa_stream_disconnect (stream : Option Handle)
  | pa_stream_unref (stream : Option Handle)
  | pa_stream_peek (stream : Handle)
  | pa_stream_drop (stream : Handle)
  | pa_context_move_sink_input_by_name (ctx : Option Handle) (idx : Nat) (sink : String)
  | pa_context_get_sink_input_info (idx : Nat)
  | pa_context_get_client_info (idx : Nat)
  | pa_context_get_client_info_list
  | pa_context_get_sink_input_info_list
  | pa_context_subscribe
  | pa_context_new (mla : Option Handle) (result : Option Handle)
  | pa_context_connect (ctx : Handle)
  | pa_context_disconnect (ctx : Handle)
  | pa_context_unref (ctx : Handle)
  | pa_signal_done
  | pa_mainloop_new (result : Option Handle)
  | pa_mainloop_get_api (ml : Option Handle) (result : Option Handle)
  | pa_mainloop_free (ml : Option Handle)
  deriving DecidableEq, Repr

/-- The static fields of `PulseAudioSource`, and whether its `iterationTimer`
member is running (`iterationTimer.isActive()`). -/
structure PulseAudioSource where
  nullDataSize : Int
  started : Bool
  shutdown : Bool
  timerActive : Bool
  muted : Bool
  sampleSpec : pa_sample_spec
  stream : Option Handle
  connectedSinkInput : Nat
  ml : Option Handle
  mla : Option Handle
  ctx : Option Handle
  clients : QHash Client
  sinkInputs : QHash SinkInput
  iterationTimerActive : Bool
  deriving DecidableEq, Repr

namespace PulseAudioSource

/-- State after static initialisation (lines 16-29) and construction. -/
def initial : PulseAudioSource where
  nullDataSize := 0
  started := false
  shutdown := false
  timerActive := false
  muted := false
  sampleSpec := ⟨pa_sample_format.PA_SAMPLE_S16LE, 44100, 2⟩
  stream := none
  connectedSinkInput := PA_INVALID_INDEX
  ml := none
  mla := none
  ctx := none
  clients := []
  sinkInputs := []
  iterationTimerActive := false

/-- Constant `timerDelta = 1000/25` (integer division), in milliseconds. -/
def timerDelta : Int := 1000 / 25

/-- Conversion of a `uint32_t` to `int` (two's complement, 32 bits). -/
def toInt32 (n : Nat) : Int :=
  if n % 4294967296 < 2147483648 then ((n % 4294967296 : Nat) : Int)
  else ((n % 4294967296 : Nat) : Int) - 4294967296

/-- Wrap of an integer result into the range of `int`. -/
def wrapInt32 (i : Int) : Int :=
  toInt32 (i % 4294967296).toNat

/-- Function `inited()`: `ml && mla && ctx`. -/
def inited (s : PulseAudioSource) : Bool :=
  s.ml.isSome && s.mla.isSome && s.ctx.isSome

/-- Function `muteConnectedSinkInput()`; its body is compiled only under `SAILFISH`. -/
def muteConnectedSinkInput (b : Build) (s : PulseAudioSource) :
    PulseAudioSource × List Effect :=
  if b.sailfish then
    if !s.muted && s.connectedSinkInput != PA_INVALID_INDEX then
      ({ s with muted := true },
        [Effect.pa_context_move_sink_input_by_name s.ctx s.connectedSinkInput "sink.null"])
    else (s, [])
  else (s, [])

/-- Function `unmuteConnectedSinkInput()`; its body is compiled only under `SAILFISH`. -/
def unmuteConnectedSinkInput (b : Build) (s : PulseAudioSource) :
    PulseAudioSource × List Effect :=
  if b.sailfish then
    if s.connectedSinkInput != PA_INVALID_INDEX &&
        QHash.contains s.sinkInputs s.connectedSinkInput then
      ({ s with muted := false },
        [Effect.pa_context_move_sink_input_by_name s.ctx s.connectedSinkInput "sink.primary"])
    else ({ s with muted := false }, [])
  else (s, [])

/-- Function `stopRecordStream()`. -/
def stopRecordStream (b : Build) (s : PulseAudioSource) : PulseAudioSource × List Effect :=
  if s.stream.isSome then
    let r := unmuteConnectedSinkInput b s
    ({ r.1 with stream := none, connectedSinkInput := PA_INVALID_INDEX },
      r.2 ++ [Effect.pa_stream_disconnect s.stream, Effect.pa_stream_unref s.stream])
  else (s, [])

/-- What libpulse answers during one `startRecordStream`: the handle returned by
`pa_stream_new` and the return codes of `pa_stream_set_monitor_stream` and
`pa_stream_connect_record`. -/
structure StreamEnv where
  newStream : Option Handle
  monitorRet : Int
  connectRet : Int
  deriving DecidableEq, Repr

/-- Function `startRecordStream(ctx, si)`: return value, new state, effects. -/
def startRecordStream (b : Build) (env : StreamEnv) (ctx : Option Handle) (si : Nat)
    (s : PulseAudioSource) : Bool × PulseAudioSource × List Effect :=
  let r0 := stopRecordStream b s
  let s1 := { r0.1 with stream := env.newStream, connectedSinkInput := si }
  let e1 := [Effect.pa_stream_new ctx s1.sampleSpec env.newStream,
             Effect.pa_stream_set_read_callback env.newStream]
  let r2 := muteConnectedSinkInput b s1
  if env.monitorRet < 0 then
    let r3 := unmuteConnectedSinkInput b r2.1
    (false, { r3.1 with stream := none, connectedSinkInput := PA_INVALID_INDEX },
      r0.2 ++ e1 ++ r2.2 ++ [Effect.pa_stream_set_monitor_stream env.newStream si,
        Effect.pa_stream_disconnect env.newStream, Effect.pa_stream_unref env.newStream] ++ r3.2)
  else if env.connectRet < 0 then
    let r3 := unmuteConnectedSinkInput b r2.1
    (false, { r3.1 with stream := none, connectedSinkInput := PA_INVALID_INDEX },
      r0.2 ++ e1 ++ r2.2 ++ [Effect.pa_stream_set_monitor_stream env.newStream si,
        Effect.pa_stream_connect_record env.newStream,
        Effect.pa_stream_disconnect env.newStream, Effect.pa_stream_unref env.newStream] ++ r3.2)
  else
    (true, r2.1,
      r0.2 ++ e1 ++ r2.2 ++ [Effect.pa_stream_set_monitor_stream env.newStream si,
        Effect.pa_stream_connect_record env.newStream])

/-- Function `discoverStream()`.  The loop over `sinkInputs` returns at the first
entry that is not corked and whose client is known. -/
def discoverStream (b : Build) (env : StreamEnv) (s : PulseAudioSource) :
    PulseAudioSource × List Effect :=
  if inited s then
    match s.sinkInputs.find? (fun e => !e.2.corked && QHash.contains s.clients e.2.clientIdx) with
    | some e =>
      let si := e.2
      let client := QHash.value ({} : Client) s.clients si.clientIdx
      if s.connectedSinkInput != si.idx then
        let r := startRecordStream b env s.ctx si.idx s
        if r.1 then (r.2.1, r.2.2 ++ [Effect.updatePulseStreamName client.name])
        else (r.2.1, r.2.2 ++ [Effect.updatePulseStreamName ""])
      else (s, [Effect.updatePulseStreamName client.name])
    | none =>
      let r := stopRecordStream b s
      (r.1, Effect.updatePulseStreamName "" :: r.2)
  else (s, [])

/-- Function `isBlacklisted(name)`. -/
def isBlacklisted (b : Build) (name : String) : Bool :=
  if b.sailfish then
    name == "ngfd" || name == "feedback-event" || name == "keyboard_0" ||
      name == "keyboard_1" || name == "ngf-tonegen-plugin" || name == "jolla keyboard"
  else
    name == "speech-dispatcher-dummy" || (b.qtDebug && name == "Kodi")

/-- Function `correctClientName(client)`; its body is compiled only under `SAILFISH`. -/
def correctClientName (b : Build) (client : Client) : Client :=
  if b.sailfish then
    if client.name == "CubebUtils" && !client.binary.isEmpty then
      { client with name := client.binary }
    else if client.name == "aliendalvik_audio_glue" then
      { client with name := "Android" }
    else client
  else client

/-- The members of `pa_client_info` the callback reads.  `binary` and `icon` are
the values of the property-list entries `PA_PROP_APPLICATION_PROCESS_BINARY` and
`PA_PROP_APPLICATION_ICON_NAME`, `none` when the entry is absent or
`pa_proplist_get` fails. -/
structure pa_client_info where
  index : Nat
  name : String
  binary : Option String
  icon : Option String
  deriving DecidableEq, Repr

/-- The members of `pa_sink_input_info` the callback stores. -/
structure pa_sink_input_info where
  index : Nat
  client : Nat
  name : String
  corked : Bool
  deriving DecidableEq, Repr

/-- Function `clientInfoCallback(ctx, i, eol, userdata)`; `i` is read only when
`eol` is zero. -/
def clientInfoCallback (b : Build) (i : pa_client_info) (eol : Int) (s : PulseAudioSource) :
    PulseAudioSource × List Effect :=
  if eol == 0 then
    if !isBlacklisted b i.name then
      ({ s with clients := QHash.modify ({} : Client) s.clients i.index (fun c =>
          let c1 := { c with idx := i.index, name := i.name }
          let c2 := match i.binary with
            | some v => { c1 with binary := v }
            | none => c1
          let c3 := match i.icon with
            | some v => { c2 with icon := v }
            | none => c2
          correctClientName b c3) }, [])
    else ({ s with clients := QHash.remove s.clients i.index }, [])
  else (s, [])

/-- Function `sinkInputInfoCallback(ctx, i, eol, userdata)`; `i` is read only when
`eol` is zero. -/
def sinkInputInfoCallback (b : Build) (env : StreamEnv) (i : pa_sink_input_info) (eol : Int)
    (s : PulseAudioSource) : PulseAudioSource × List Effect :=
  if eol == 0 then
    ({ s with sinkInputs := QHash.modify ({} : SinkInput) s.sinkInputs i.index (fun si =>
        { si with idx := i.index, clientIdx := i.client, name := i.name, corked := i.corked }) },
      [])
  else discoverStream b env s

/-- Facility codes and masks of `pa_subscription_event_type_t` (libpulse). -/
def PA_SUBSCRIPTION_EVENT_SINK_INPUT : Nat := 2
/-- Facility code of client events (libpulse). -/
def PA_SUBSCRIPTION_EVENT_CLIENT : Nat := 5
/-- Mask selecting the facility of an event (libpulse). -/
def PA_SUBSCRIPTION_EVENT_FACILITY_MASK : Nat := 15
/-- Type code of a creation event (libpulse). -/
def PA_SUBSCRIPTION_EVENT_NEW : Nat := 0
/-- Type code of a change event (libpulse). -/
def PA_SUBSCRIPTION_EVENT_CHANGE : Nat := 16
/-- Type code of a removal event (libpulse). -/
def PA_SUBSCRIPTION_EVENT_REMOVE : Nat := 32
/-- Mask selecting the type of an event (libpulse). -/
def PA_SUBSCRIPTION_EVENT_TYPE_MASK : Nat := 48

/-- Function `subscriptionCallback(ctx, t, idx, userdata)`. -/
def subscriptionCallback (b : Build) (env : StreamEnv) (t : Nat) (idx : Nat)
    (s : PulseAudioSource) : PulseAudioSource × List Effect :=
  let facility := t &&& PA_SUBSCRIPTION_EVENT_FACILITY_MASK
  let type := t &&& PA_SUBSCRIPTION_EVENT_TYPE_MASK
  if facility == PA_SUBSCRIPTION_EVENT_SINK_INPUT then
    if type == PA_SUBSCRIPTION_EVENT_NEW || type == PA_SUBSCRIPTION_EVENT_CHANGE then
      (s, [Effect.pa_context_get_sink_input_info idx])
    else if type == PA_SUBSCRIPTION_EVENT_REMOVE then
      discoverStream b env { s with sinkInputs := QHash.remove s.sinkInputs idx }
    else (s, [])
  else if facility == PA_SUBSCRIPTION_EVENT_CLIENT then
    if type == PA_SUBSCRIPTION_EVENT_NEW || type == PA_SUBSCRIPTION_EVENT_CHANGE then
      (s, [Effect.pa_context_get_client_info idx])
    else if type == PA_SUBSCRIPTION_EVENT_REMOVE then
      ({ s with clients := QHash.remove s.clients idx }, [])
    else (s, [])
  else (s, [])

/-- Function `successSubscribeCallback(ctx, success, userdata)`. -/
def successSubscribeCallback (success : Int) (s : PulseAudioSource) :
    PulseAudioSource × List Effect :=
  if success != 0 then
    (s, [Effect.pa_context_get_client_info_list, Effect.pa_context_get_sink_input_info_list])
  else (s, [])

/-- States of a libpulse context (`pa_context_state_t`). -/
inductive pa_context_state where
  | PA_CONTEXT_UNCONNECTED
  | PA_CONTEXT_CONNECTING
  | PA_CONTEXT_AUTHORIZING
  | PA_CONTEXT_SETTING_NAME
  | PA_CONTEXT_READY
  | PA_CONTEXT_FAILED
  | PA_CONTEXT_TERMINATED
  deriving DecidableEq, Repr

/-- Function `stateCallback(ctx, userdata)`; `st` is what `pa_context_get_state`
answers. -/
def stateCallback (st : pa_context_state) (s : PulseAudioSource) :
    PulseAudioSource × List Effect :=
  match st with
  | .PA_CONTEXT_READY => (s, [Effect.pa_context_subscribe])
  | _ => (s, [])

/-- Function `contextSuccessCallback(ctx, success, userdata)`. -/
def contextSuccessCallback (_success : Int) (s : PulseAudioSource) :
    PulseAudioSource × List Effect :=
  (s, [])

/-- What `pa_stream_peek` answers: its return code, the data pointer and the
byte count it writes. -/
structure PeekResult where
  ret : Int
  data : Option (List Nat)
  nbytes : Nat
  deriving DecidableEq, Repr

/-- Function `streamRequestCallback(stream, nbytes, userdata)`. -/
def streamRequestCallback (stream : Handle) (nbytes : Nat) (peek : PeekResult)
    (s : PulseAudioSource) : PulseAudioSource × List Effect :=
  if nbytes ≤ 0 then (s, [])
  else if peek.ret < 0 then (s, [Effect.pa_stream_peek stream])
  else if peek.data.isNone then (s, [Effect.pa_stream_peek stream])
  else if peek.nbytes ≤ 0 then (s, [Effect.pa_stream_peek stream])
  else if s.stream.isSome then
    (s, [Effect.pa_stream_peek stream, Effect.dispatchPulseData peek.data (toInt32 peek.nbytes),
         Effect.pa_stream_drop stream])
  else (s, [Effect.pa_stream_peek stream, Effect.pa_stream_drop stream])

/-- One callback invocation made by libpulse while the main loop iterates,
together with what libpulse answers to the calls made inside it. -/
inductive Callback where
  | state (st : pa_context_state)
  | successSubscribe (success : Int)
  | subscription (t : Nat) (idx : Nat) (env : StreamEnv)
  | sinkInputInfo (i : pa_sink_input_info) (eol : Int) (env : StreamEnv)
  | clientInfo (i : pa_client_info) (eol : Int)
  | streamRequest (stream : Handle) (nbytes : Nat) (peek : PeekResult)
  | contextSuccess (success : Int)
  deriving DecidableEq, Repr

/-- Runs one callback. -/
def runCallback (b : Build) (cb : Callback) (s : PulseAudioSource) :
    PulseAudioSource × List Effect :=
  match cb with
  | .state st => stateCallback st s
  | .successSubscribe success => successSubscribeCallback success s
  | .subscription t idx env => subscriptionCallback b env t idx s
  | .sinkInputInfo i eol env => sinkInputInfoCallback b env i eol s
  | .clientInfo i eol => clientInfoCallback b i eol s
  | .streamRequest stream nbytes peek => streamRequestCallback stream nbytes peek s
  | .contextSuccess success => contextSuccessCallback success s

/-- Runs callbacks in order, collecting their effects. -/
def runCallbacks (b : Build) : List Callback → PulseAudioSource → PulseAudioSource × List Effect
  | [], s => (s, [])
  | cb :: rest, s =>
    let r := runCallback b cb s
    let r2 := runCallbacks b rest r.1
    (r2.1, r.2 ++ r2.2)

/-- One complete run of the loop
`while (pa_mainloop_iterate(ml, 0, &ret) > 0) continue;`:
the callbacks libpulse dispatched over all its iterations, in order, and the
value left in `ret` when the loop ends (0 unless libpulse wrote it). -/
structure MainloopRun where
  callbacks : List Callback
  ret : Int
  deriving DecidableEq, Repr

/-- Function `deinit()`. -/
def deinit (s : PulseAudioSource) : PulseAudioSource × List Effect :=
  let s1 := { s with started := false }
  let r2 : PulseAudioSource × List Effect :=
    match s1.ctx with
    | some c => ({ s1 with ctx := none }, [Effect.pa_context_disconnect c, Effect.pa_context_unref c])
    | none => (s1, [])
  match r2.1.ml with
  | some m => ({ r2.1 with ml := none, mla := none },
      r2.2 ++ [Effect.pa_signal_done, Effect.pa_mainloop_free (some m)])
  | none => r2

/-- What libpulse answers during `init()`: the results of `pa_mainloop_new`,
`pa_mainloop_get_api` and `pa_context_new`, and the return code of
`pa_context_connect`. -/
structure InitEnv where
  newMainloop : Option Handle
  api : Option Handle
  newContext : Option Handle
  connectRet : Int
  deriving DecidableEq, Repr

/-- The expression assigned to `nullDataSize` in `init()`:
`int(double(timerDelta)/1000) * 2 * int(sampleSpec.rate) * int(sampleSpec.channels)`.
Only the quotient is inside the first conversion.  `double(timerDelta)` is exact,
the quotient by 1000 is rounded by far less than the 1/1000 that separates a
non-integer quotient from the nearest integer, and the conversion to `int` drops
the fraction: the first factor is the quotient truncated toward zero, `Int.tdiv`.
The products are taken in `int`. -/
def nullDataSizeOf (spec : pa_sample_spec) : Int :=
  wrapInt32 (wrapInt32 (wrapInt32 (Int.tdiv timerDelta 1000 * 2) * toInt32 spec.rate) *
    ((spec.channels % 256 : Nat) : Int))

/-- Function `init()`: return value, new state, effects. -/
def init (env : InitEnv) (s : PulseAudioSource) : Bool × PulseAudioSource × List Effect :=
  let s1 := { s with shutdown := false, nullDataSize := nullDataSizeOf s.sampleSpec,
                     ml := env.newMainloop, mla := env.api, ctx := env.newContext }
  let e1 := [Effect.pa_mainloop_new env.newMainloop,
             Effect.pa_mainloop_get_api env.newMainloop env.api,
             Effect.pa_context_new env.api env.newContext]
  match env.newContext with
  | none =>
    (false, { s1 with ml := none, mla := none }, e1 ++ [Effect.pa_mainloop_free env.newMainloop])
  | some c =>
    if env.connectRet < 0 then
      (false, { s1 with ctx := none, ml := none, mla := none },
        e1 ++ [Effect.pa_context_connect c, Effect.pa_context_unref c,
               Effect.pa_mainloop_free env.newMainloop])
    else (true, s1, e1 ++ [Effect.pa_context_connect c])

/-- Function `stop()`. -/
def stop (b : Build) (s : PulseAudioSource) : PulseAudioSource × List Effect :=
  let s1 := { s with shutdown := true }
  if inited s1 then stopRecordStream b s1 else (s1, [])

/-- The two subscriber tables of `ContentServerWorker` that `doPulseIteration`
inspects, as lists of response handles. -/
structure Worker where
  screenCaptureItems : List Handle
  audioCaptureItems : List Handle
  deriving DecidableEq, Repr

/-- Function `doPulseIteration()`. -/
def doPulseIteration (b : Build) (worker : Worker) (run : MainloopRun) (s : PulseAudioSource) :
    PulseAudioSource × List Effect :=
  let r1 : PulseAudioSource × List Effect :=
    if worker.screenCaptureItems.isEmpty && worker.audioCaptureItems.isEmpty then stop b s
    else (s, [])
  let r2 := runCallbacks b run.callbacks r1.1
  let s2 := r2.1
  if run.ret == 0 && !s2.shutdown then
    let e3 := if s2.stream.isNone then [Effect.dispatchPulseData none s2.nullDataSize] else []
    ({ s2 with iterationTimerActive := true }, r1.2 ++ r2.2 ++ e3 ++ [Effect.iterationTimerStart])
  else
    let r3 := deinit s2
    (r3.1, r1.2 ++ r2.2 ++ r3.2)

/-- The single-shot `iterationTimer` fires: it is no longer active, and the
connected slot `doPulseIteration()` runs. -/
def onTimeout (b : Build) (worker : Worker) (run : MainloopRun) (s : PulseAudioSource) :
    PulseAudioSource × List Effect :=
  doPulseIteration b worker run { s with iterationTimerActive := false }

/-- Function `start()`: return value, new state, effects. -/
def start (env : InitEnv) (s : PulseAudioSource) : Bool × PulseAudioSource × List Effect :=
  let r1 : Bool × PulseAudioSource × List Effect :=
    if !inited s then init env s else (true, s, [])
  if !r1.1 then (false, r1.2.1, r1.2.2)
  else
    let s2 := { r1.2.1 with shutdown := false }
    if !s2.iterationTimerActive then
      (true, { s2 with iterationTimerActive := true }, r1.2.2 ++ [Effect.iterationTimerStart])
    else (true, s2, r1.2.2)

/-- Whether an effect is a silence buffer, `dispatchPulseData(nullptr, _)`. -/
def isSilence : Effect → Bool
  | Effect.dispatchPulseData none _ => true
  | _ => false

/-- Whether an effect is a call of `iterationTimer.start()`. -/
def isTimerStart : Effect → Bool
  | Effect.iterationTimerStart => true
  | _ => false

/-- Number of silence buffers among the effects. -/
def silenceCount (es : List Effect) : Nat :=
  es.countP isSilence

/-- Number of `iterationTimer.start()` calls among the effects. -/
def timerStartCount (es : List Effect) : Nat :=
  es.countP isTimerStart

/-- The fields that only `init`, `deinit`, `start`, `stop` and `doPulseIteration`
write: `t` agrees with `s` on all of them. -/
def SameLifecycle (s t : PulseAudioSource) : Prop :=
  t.ml = s.ml ∧ t.mla = s.mla ∧ t.ctx = s.ctx ∧ t.started = s.started ∧
  t.shutdown = s.shutdown ∧ t.sampleSpec = s.sampleSpec ∧ t.nullDataSize = s.nullDataSize ∧
  t.iterationTimerActive = s.iterationTimerActive ∧ t.timerActive = s.timerActive

/-- Effects among which there is neither a silence buffer nor a timer start. -/
def Quiet (es : List Effect) : Prop :=
  ∀ e ∈ es, isSilence e = false ∧ isTimerStart e = false

/-- Build used in the examples: neither `SAILFISH` nor `QT_DEBUG`. -/
def desktopBuild : Build := ⟨false, false⟩

/-- Example state: inited, timer running, recording sink input 7 on stream 4. -/
def recordingState : PulseAudioSource :=
  { initial with
    ml := some 1, mla := some 2, ctx := some 3, stream := some 4, connectedSinkInput := 7,
    clients := [(5, { idx := 5, name := "player" })],
    sinkInputs := [(7, { idx := 7, clientIdx := 5, name := "music", corked := false })],
    iterationTimerActive := true }

/-- Example worker without capture subscribers. -/
def idleWorker : Worker := ⟨[], []⟩

/-- Example worker with one audio-capture subscriber. -/
def busyWorker : Worker := ⟨[], [11]⟩

/-- Example run of the main loop: nothing dispatched, `ret` left at 0. -/
def quietRun : MainloopRun := ⟨[], 0⟩

/-- Example answers of libpulse during `init()`: every call succeeds. -/
def goodInit : InitEnv := ⟨some 1, some 2, some 3, 0⟩

/-- Example answers of libpulse during `init()`: `pa_context_connect` fails. -/
def refusedInit : InitEnv := ⟨some 1, some 2, some 3, -1⟩

/-- The record streams alive after one effect: `pa_stream_new` adds the handle it
returned, `pa_stream_unref` releases the handle it is given. -/
def liveStreamsStep (live : List Handle) : Effect → List Handle
  | Effect.pa_stream_new _ _ (some h) => h :: live
  | Effect.pa_stream_unref (some h) => live.erase h
  | _ => live

/-- The record streams alive after a list of effects. -/
def liveStreamsAfter (live : List Handle) : List Effect → List Handle
  | [] => live
  | e :: es => liveStreamsAfter (liveStreamsStep live e) es

/-- The record streams alive before the effects, between any two of them, and
after the last. -/
def liveStreamsTrace (live : List Handle) : List Effect → List (List Handle)
  | [] => [live]
  | e :: es => live :: liveStreamsTrace (liveStreamsStep live e) es

/-- Whether an effect creates or releases a stream (`pa_stream_new`,
`pa_stream_unref`). -/
def isStreamCall : Effect → Bool
  | Effect.pa_stream_new _ _ _ => true
  | Effect.pa_stream_unref _ => true
  | _ => false

/-- Effects that neither create nor release a stream. -/
def NoStreamCall (es : List Effect) : Prop :=
  ∀ e ∈ es, isStreamCall e = false

instance (s t : PulseAudioSource) : Decidable (SameLifecycle s t) := by
  unfold SameLifecycle
  exact inferInstance

instance (es : List Effect) : Decidable (Quiet es) := by
  unfold Quiet
  exact inferInstance

instance (es : List Effect) : Decidable (NoStreamCall es) := by
  unfold NoStreamCall
  exact inferInstance

/-- The `dispatchPulseData(data, size)` calls among the effects, in order, each
with its two arguments. -/
def dispatchCalls : List Effect → List (Option (List Nat) × Int)
  | [] => []
  | Effect.dispatchPulseData data size :: es => (data, size) :: dispatchCalls es
  | _ :: es => dispatchCalls es

/-- Example state: inited, nothing recorded. -/
def idleState : PulseAudioSource :=
  { initial with ml := some 1, mla := some 2, ctx := some 3, iterationTimerActive := true }

/-- One lifecycle operation of `PulseAudioSource`, with what libpulse and the
worker answer during it. -/
inductive Op where
  | init (env : InitEnv)
  | deinit
  | start (env : InitEnv)
  | stop
  | doPulseIteration (worker : Worker) (run : MainloopRun)
  deriving DecidableEq, Repr

/-- The state after one operation. -/
def applyOp (b : Build) (op : Op) (s : PulseAudioSource) : PulseAudioSource :=
  match op with
  | .init env => (init env s).2.1
  | .deinit => (deinit s).1
  | .start env => (start env s).2.1
  | .stop => (stop b s).1
  | .doPulseIteration worker run => (doPulseIteration b worker run s).1

/-- The state after a sequence of operations. -/
def runOps (b : Build) : List Op → PulseAudioSource → PulseAudioSource
  | [], s => s
  | op :: ops, s => runOps b ops (applyOp b op s)

/-- Whether `pa_mainloop_new` and `pa_mainloop_get_api` returned non-null handles. -/
def InitEnv.mainloopOk (env : InitEnv) : Bool :=
  env.newMainloop.isSome && env.api.isSome

/-- Whether a sequence of operations is one the lifecycle invariant speaks of:
`init()` is called only when the source is not inited, and whenever `init()`
runs (directly or inside `start()`), `pa_mainloop_new` and `pa_mainloop_get_api`
return non-null handles. -/
def admissible (b : Build) : List Op → PulseAudioSource → Bool
  | [], _ => true
  | op :: ops, s =>
    (match op with
      | .init env => !inited s && env.mainloopOk
      | .start env => inited s || env.mainloopOk
      | _ => true) && admissible b ops (applyOp b op s)

/-- Whether `ml`, `mla` and `ctx` are all null or all non-null. -/
def handlesConsistent (s : PulseAudioSource) : Bool :=
  (s.ml.isNone && s.mla.isNone && s.ctx.isNone) ||
  (s.ml.isSome && s.mla.isSome && s.ctx.isSome)

/-- Example sequence of operations: start, one iteration with a subscriber,
stop, one iteration without subscriber (which deinits), a refused `init()`, and
a second start. -/
def exampleOps : List Op :=
  [Op.start goodInit, Op.doPulseIteration busyWorker quietRun, Op.stop,
   Op.doPulseIteration idleWorker quietRun, Op.init refusedInit, Op.start goodInit]

/-- The names passed to `updatePulseStreamName` among the effects, in order. -/
def streamNames : List Effect → List String
  | [] => []
  | Effect.updatePulseStreamName name :: es => name :: streamNames es
  | _ :: es => streamNames es

/-- The test `discoverStream()` applies to a sink input: not corked, and its
client is in `clients`. -/
def eligibleSinkInput (clients : QHash Client) (si : SinkInput) : Bool :=
  !si.corked && QHash.contains clients si.clientIdx

/-- Whether `pa_stream_new` returned a non-null stream. -/
def StreamEnv.streamOk (env : StreamEnv) : Bool :=
  env.newStream.isSome

/-- Whether every `pa_stream_new` made inside a callback returns a non-null stream. -/
def Callback.streamOk : Callback → Bool
  | .subscription _ _ env => env.streamOk
  | .sinkInputInfo _ _ env => env.streamOk
  | _ => true

/-- Whether every `pa_stream_new` made during an operation returns a non-null stream. -/
def Op.streamOk : Op → Bool
  | .doPulseIteration _ run => run.callbacks.all Callback.streamOk
  | _ => true

/-- The state in which a callback can find the source: after a sequence of
lifecycle operations from the initial state, and after the callbacks that the
main loop has already dispatched since. -/
def reachedState (b : Build) (ops : List Op) (cbs : List Callback) : PulseAudioSource :=
  (runCallbacks b cbs (runOps b ops initial)).1

/-- Consistency of the recording fields: every entry of `sinkInputs` is stored
under its own index, and `connectedSinkInput` is `PA_INVALID_INDEX` whenever
`stream` is null. -/
def RecordInv (s : PulseAudioSource) : Prop :=
  (∀ e ∈ s.sinkInputs, e.2.idx = e.1) ∧
  (s.stream = none → s.connectedSinkInput = PA_INVALID_INDEX)

instance (s : PulseAudioSource) : Decidable (RecordInv s) := by
  unfold RecordInv
  exact inferInstance

/-- The value of `pa_subscription_event_type_t` for the removal of a sink input:
`PA_SUBSCRIPTION_EVENT_SINK_INPUT | PA_SUBSCRIPTION_EVENT_REMOVE`. -/
def sinkInputRemoveEvent : Nat :=
  PA_SUBSCRIPTION_EVENT_SINK_INPUT ||| PA_SUBSCRIPTION_EVENT_REMOVE

/-- The value of `pa_subscription_event_type_t` for the removal of a client:
`PA_SUBSCRIPTION_EVENT_CLIENT | PA_SUBSCRIPTION_EVENT_REMOVE`. -/
def clientRemoveEvent : Nat :=
  PA_SUBSCRIPTION_EVENT_CLIENT ||| PA_SUBSCRIPTION_EVENT_REMOVE

/-- Example callbacks: client 5 and its un-corked sink inputs 7 and 8 are
announced, and the recording of sink input 7 starts on stream 9. -/
def twoInputsCallbacks : List Callback :=
  [Callback.clientInfo ⟨5, "player", none, none⟩ 0,
   Callback.sinkInputInfo ⟨7, 5, "music", false⟩ 0 ⟨some 9, 0, 0⟩,
   Callback.sinkInputInfo ⟨8, 5, "video", false⟩ 0 ⟨some 9, 0, 0⟩,
   Callback.sinkInputInfo ⟨0, 0, "", false⟩ 1 ⟨some 9, 0, 0⟩]

/-! ## Frame lemmas -/

theorem SameLifecycle.refl (s : PulseAudioSource) : SameLifecycle s s := by
  simp [SameLifecycle]

theorem SameLifecycle.trans {s t u : PulseAudioSource} (h1 : SameLifecycle s t)
    (h2 : SameLifecycle t u) : SameLifecycle s u := by
  obtain ⟨a1, a2, a3, a4, a5, a6, a7, a8, a9⟩ := h1
  obtain ⟨b1, b2, b3, b4, b5, b6, b7, b8, b9⟩ := h2
  exact ⟨b1.trans a1, b2.trans a2, b3.trans a3, b4.trans a4, b5.trans a5, b6.trans a6,
    b7.trans a7, b8.trans a8, b9.trans a9⟩

theorem Quiet.nil : Quiet [] := by
  intro e he
  cases he

theorem Quiet.append {xs ys : List Effect} (hx : Quiet xs) (hy : Quiet ys) :
    Quiet (xs ++ ys) := by
  intro e he
  rcases List.mem_append.mp he with h | h
  · exact hx e h
  · exact hy e h

theorem Quiet.silenceCount_eq {es : List Effect} (h : Quiet es) : silenceCount es = 0 := by
  unfold silenceCount
  rw [List.countP_eq_zero]
  intro e he
  simp [(h e he).1]

theorem Quiet.timerStartCount_eq {es : List Effect} (h : Quiet es) : timerStartCount es = 0 := by
  unfold timerStartCount
  rw [List.countP_eq_zero]
  intro e he
  simp [(h e he).2]

theorem muteConnectedSinkInput_frame (b : Build) (s : PulseAudioSource) :
    SameLifecycle s (muteConnectedSinkInput b s).1 ∧ Quiet (muteConnectedSinkInput b s).2 ∧
    (muteConnectedSinkInput b s).1.stream = s.stream ∧
    (muteConnectedSinkInput b s).1.connectedSinkInput = s.connectedSinkInput ∧
    (muteConnectedSinkInput b s).1.clients = s.clients ∧
    (muteConnectedSinkInput b s).1.sinkInputs = s.sinkInputs := by
  unfold muteConnectedSinkInput
  split_ifs <;> simp [SameLifecycle, Quiet, isSilence, isTimerStart]

theorem unmuteConnectedSinkInput_frame (b : Build) (s : PulseAudioSource) :
    SameLifecycle s (unmuteConnectedSinkInput b s).1 ∧ Quiet (unmuteConnectedSinkInput b s).2 ∧
    (unmuteConnectedSinkInput b s).1.stream = s.stream ∧
    (unmuteConnectedSinkInput b s).1.connectedSinkInput = s.connectedSinkInput ∧
    (unmuteConnectedSinkInput b s).1.clients = s.clients ∧
    (unmuteConnectedSinkInput b s).1.sinkInputs = s.sinkInputs := by
  unfold unmuteConnectedSinkInput
  split_ifs <;> simp [SameLifecycle, Quiet, isSilence, isTimerStart]

theorem stopRecordStream_frame (b : Build) (s : PulseAudioSource) :
    SameLifecycle s (stopRecordStream b s).1 ∧ Quiet (stopRecordStream b s).2 ∧
    (stopRecordStream b s).1.stream = none ∧
    (stopRecordStream b s).1.clients = s.clients ∧
    (stopRecordStream b s).1.sinkInputs = s.sinkInputs := by
  have hu := unmuteConnectedSinkInput_frame b s
  obtain ⟨h1, h2, -, -, h5, h6⟩ := hu
  unfold stopRecordStream
  split_ifs with h
  · refine ⟨?_, ?_, rfl, h5, h6⟩
    · simpa [SameLifecycle] using h1
    · apply Quiet.append h2
      simp [Quiet, isSilence, isTimerStart]
  · refine ⟨SameLifecycle.refl s, Quiet.nil, ?_, rfl, rfl⟩
    simpa using h

theorem startRecordStream_frame (b : Build) (env : StreamEnv) (ctx : Option Handle) (si : Nat)
    (s : PulseAudioSource) :
    SameLifecycle s (startRecordStream b env ctx si s).2.1 ∧
    Quiet (startRecordStream b env ctx si s).2.2 ∧
    (startRecordStream b env ctx si s).2.1.clients = s.clients ∧
    (startRecordStream b env ctx si s).2.1.sinkInputs = s.sinkInputs := by
  have a := stopRecordStream_frame b s
  unfold startRecordStream
  generalize stopRecordStream b s = r0 at a ⊢
  obtain ⟨a1, a2, -, a4, a5⟩ := a
  have m := muteConnectedSinkInput_frame b
    { r0.1 with stream := env.newStream, connectedSinkInput := si }
  simp only [] at m ⊢
  generalize muteConnectedSinkInput b _ = r2 at m ⊢
  obtain ⟨m1, m2, -, -, m5, m6⟩ := m
  have u := unmuteConnectedSinkInput_frame b r2.1
  generalize unmuteConnectedSinkInput b r2.1 = r3 at u ⊢
  obtain ⟨u1, u2, -, -, u5, u6⟩ := u
  simp only [SameLifecycle] at a1 m1 u1 ⊢
  simp only [Quiet] at a2 m2 u2 ⊢
  split_ifs
  · refine ⟨by simp_all, ?_, by simp_all, by simp_all⟩
    intro e he
    simp only [List.mem_append, List.mem_cons, List.mem_singleton, List.not_mem_nil,
      or_false] at he
    rcases he with (((h | h | h) | h) | h | h | h) | h
    · exact a2 e h
    · subst h; simp [isSilence, isTimerStart]
    · subst h; simp [isSilence, isTimerStart]
    · exact m2 e h
    · subst h; simp [isSilence, isTimerStart]
    · subst h; simp [isSilence, isTimerStart]
    · subst h; simp [isSilence, isTimerStart]
    · exact u2 e h
  · refine ⟨by simp_all, ?_, by simp_all, by simp_all⟩
    intro e he
    simp only [List.mem_append, List.mem_cons, List.mem_singleton, List.not_mem_nil,
      or_false] at he
    rcases he with (((h | h | h) | h) | h | h | h | h) | h
    · exact a2 e h
    · subst h; simp [isSilence, isTimerStart]
    · subst h; simp [isSilence, isTimerStart]
    · exact m2 e h
    · subst h; simp [isSilence, isTimerStart]
    · subst h; simp [isSilence, isTimerStart]
    · subst h; simp [isSilence, isTimerStart]
    · subst h; simp [isSilence, isTimerStart]
    · exact u2 e h
  · refine ⟨by simp_all, ?_, by simp_all, by simp_all⟩
    intro e he
    simp only [List.mem_append, List.mem_cons, List.mem_singleton, List.not_mem_nil,
      or_false] at he
    rcases he with ((h | h | h) | h) | h | h
    · exact a2 e h
    · subst h; simp [isSilence, isTimerStart]
    · subst h; simp [isSilence, isTimerStart]
    · exact m2 e h
    · subst h; simp [isSilence, isTimerStart]
    · subst h; simp [isSilence, isTimerStart]

theorem Quiet.snoc_name {es : List Effect} (h : Quiet es) (name : String) :
    Quiet (es ++ [Effect.updatePulseStreamName name]) := by
  apply Quiet.append h
  intro e he
  simp only [List.mem_singleton] at he
  subst he
  simp [isSilence, isTimerStart]

theorem discoverStream_frame (b : Build) (env : StreamEnv) (s : PulseAudioSource) :
    SameLifecycle s (discoverStream b env s).1 ∧ Quiet (discoverStream b env s).2 ∧
    (discoverStream b env s).1.clients = s.clients ∧
    (discoverStream b env s).1.sinkInputs = s.sinkInputs := by
  unfold discoverStream
  split_ifs with hi
  · split
    · rename_i e _
      obtain ⟨a1, a2, a3, a4⟩ := startRecordStream_frame b env s.ctx e.2.idx s
      simp only []
      split_ifs
      · exact ⟨a1, a2.snoc_name _, a3, a4⟩
      · exact ⟨a1, a2.snoc_name _, a3, a4⟩
      · refine ⟨SameLifecycle.refl s, ?_, rfl, rfl⟩
        simpa using Quiet.nil.snoc_name _
    · obtain ⟨a1, a2, -, a4, a5⟩ := stopRecordStream_frame b s
      refine ⟨a1, ?_, a4, a5⟩
      have := (Quiet.nil.snoc_name "").append a2
      simpa using this
  · exact ⟨SameLifecycle.refl s, Quiet.nil, rfl, rfl⟩

theorem runCallback_frame (b : Build) (cb : Callback) (s : PulseAudioSource) :
    SameLifecycle s (runCallback b cb s).1 ∧ Quiet (runCallback b cb s).2 := by
  cases cb with
  | state st =>
    simp only [runCallback, stateCallback]
    split <;> simp [SameLifecycle, Quiet, isSilence, isTimerStart]
  | successSubscribe success =>
    simp only [runCallback, successSubscribeCallback]
    split_ifs <;> simp [SameLifecycle, Quiet, isSilence, isTimerStart]
  | subscription t idx env =>
    simp only [runCallback, subscriptionCallback]
    have a := discoverStream_frame b env { s with sinkInputs := QHash.remove s.sinkInputs idx }
    generalize discoverStream b env _ = r at a ⊢
    obtain ⟨a1, a2, -, -⟩ := a
    split_ifs
    · simp [SameLifecycle, Quiet, isSilence, isTimerStart]
    · exact ⟨by simpa [SameLifecycle] using a1, a2⟩
    · simp [SameLifecycle, Quiet]
    · simp [SameLifecycle, Quiet, isSilence, isTimerStart]
    · simp [SameLifecycle, Quiet]
    · simp [SameLifecycle, Quiet]
    · simp [SameLifecycle, Quiet]
  | sinkInputInfo i eol env =>
    simp only [runCallback, sinkInputInfoCallback]
    obtain ⟨a1, a2, -, -⟩ := discoverStream_frame b env s
    split_ifs
    · simp [SameLifecycle, Quiet]
    · exact ⟨a1, a2⟩
  | clientInfo i eol =>
    simp only [runCallback, clientInfoCallback]
    split_ifs <;> simp [SameLifecycle, Quiet]
  | streamRequest stream nbytes peek =>
    simp only [runCallback, streamRequestCallback]
    split_ifs with h1 h2 h3 h4 h5
    · simp [SameLifecycle, Quiet]
    · simp [SameLifecycle, Quiet, isSilence, isTimerStart]
    · simp [SameLifecycle, Quiet, isSilence, isTimerStart]
    · simp [SameLifecycle, Quiet, isSilence, isTimerStart]
    · refine ⟨SameLifecycle.refl s, ?_⟩
      cases hd : peek.data with
      | none => simp [hd] at h3
      | some d => simp [Quiet, isSilence, isTimerStart]
    · simp [SameLifecycle, Quiet, isSilence, isTimerStart]
  | contextSuccess success =>
    simp [runCallback, contextSuccessCallback, SameLifecycle, Quiet]

theorem runCallbacks_frame (b : Build) (cbs : List Callback) (s : PulseAudioSource) :
    SameLifecycle s (runCallbacks b cbs s).1 ∧ Quiet (runCallbacks b cbs s).2 := by
  induction cbs generalizing s with
  | nil => exact ⟨SameLifecycle.refl s, Quiet.nil⟩
  | cons cb rest ih =>
    obtain ⟨a1, a2⟩ := runCallback_frame b cb s
    obtain ⟨b1, b2⟩ := ih (runCallback b cb s).1
    exact ⟨a1.trans b1, a2.append b2⟩

theorem stop_frame (b : Build) (s : PulseAudioSource) :
    (stop b s).1.shutdown = true ∧ (stop b s).1.ml = s.ml ∧ (stop b s).1.mla = s.mla ∧
    (stop b s).1.ctx = s.ctx ∧ (stop b s).1.started = s.started ∧
    (stop b s).1.sampleSpec = s.sampleSpec ∧ (stop b s).1.nullDataSize = s.nullDataSize ∧
    (stop b s).1.iterationTimerActive = s.iterationTimerActive ∧
    (stop b s).1.clients = s.clients ∧ (stop b s).1.sinkInputs = s.sinkInputs ∧
    Quiet (stop b s).2 := by
  have a := stopRecordStream_frame b { s with shutdown := true }
  unfold stop
  simp only [] at a ⊢
  generalize stopRecordStream b _ = r at a ⊢
  obtain ⟨a1, a2, -, a4, a5⟩ := a
  simp only [SameLifecycle] at a1
  split_ifs
  · simp_all
  · simp [Quiet]

theorem deinit_frame (s : PulseAudioSource) :
    (deinit s).1.ctx = none ∧ (deinit s).1.ml = none ∧ (deinit s).1.started = false ∧
    ((s.ml = none → s.mla = none) → (deinit s).1.mla = none) ∧
    (s.ml = none → (deinit s).1.mla = s.mla) ∧
    (deinit s).1.shutdown = s.shutdown ∧ (deinit s).1.sampleSpec = s.sampleSpec ∧
    (deinit s).1.nullDataSize = s.nullDataSize ∧
    (deinit s).1.iterationTimerActive = s.iterationTimerActive ∧
    (deinit s).1.stream = s.stream ∧
    (deinit s).1.connectedSinkInput = s.connectedSinkInput ∧
    (deinit s).1.clients = s.clients ∧ (deinit s).1.sinkInputs = s.sinkInputs ∧
    Quiet (deinit s).2 := by
  unfold deinit
  cases hc : s.ctx <;> cases hm : s.ml <;>
    simp [hc, hm, Quiet, isSilence, isTimerStart]

theorem init_frame (env : InitEnv) (s : PulseAudioSource) :
    ((init env s).1 = false ↔ (env.newContext = none ∨ env.connectRet < 0)) ∧
    ((init env s).1 = false →
      (init env s).2.1.ml = none ∧ (init env s).2.1.mla = none ∧ (init env s).2.1.ctx = none) ∧
    ((init env s).1 = true →
      (init env s).2.1.ml = env.newMainloop ∧ (init env s).2.1.mla = env.api ∧
      (init env s).2.1.ctx = env.newContext ∧ env.newContext ≠ none) ∧
    (init env s).2.1.shutdown = false ∧
    (init env s).2.1.nullDataSize = nullDataSizeOf s.sampleSpec ∧
    (init env s).2.1.sampleSpec = s.sampleSpec ∧
    (init env s).2.1.iterationTimerActive = s.iterationTimerActive ∧
    (init env s).2.1.started = s.started ∧
    (init env s).2.1.stream = s.stream ∧
    (init env s).2.1.connectedSinkInput = s.connectedSinkInput ∧
    (init env s).2.1.clients = s.clients ∧ (init env s).2.1.sinkInputs = s.sinkInputs ∧
    Quiet (init env s).2.2 := by
  unfold init
  cases hc : env.newContext with
  | none => simp [Quiet, isSilence, isTimerStart]
  | some c =>
    by_cases hr : env.connectRet < 0
    · simp [hr, Quiet, isSilence, isTimerStart]
    · simp [hr, hc, Quiet, isSilence, isTimerStart]

theorem start_sampleSpec (env : InitEnv) (s : PulseAudioSource) :
    (start env s).2.1.sampleSpec = s.sampleSpec := by
  have a := init_frame env s
  unfold start
  generalize init env s = r at a ⊢
  obtain ⟨-, -, -, -, -, a6, -⟩ := a
  cases hi : inited s <;> cases hr : r.1 <;> cases ht : r.2.1.iterationTimerActive <;>
    cases ht2 : s.iterationTimerActive <;> simp [hr, ht, ht2, a6]

theorem doPulseIteration_sampleSpec (b : Build) (worker : Worker) (run : MainloopRun)
    (s : PulseAudioSource) :
    (doPulseIteration b worker run s).1.sampleSpec = s.sampleSpec := by
  have key : ∀ r1 : PulseAudioSource × List Effect, r1.1.sampleSpec = s.sampleSpec →
      (if (run.ret == 0 && !(runCallbacks b run.callbacks r1.1).1.shutdown) = true then
        ({ (runCallbacks b run.callbacks r1.1).1 with iterationTimerActive := true },
          r1.2 ++ (runCallbacks b run.callbacks r1.1).2 ++
            (if (runCallbacks b run.callbacks r1.1).1.stream.isNone = true then
              [Effect.dispatchPulseData none (runCallbacks b run.callbacks r1.1).1.nullDataSize]
            else []) ++ [Effect.iterationTimerStart])
      else
        ((deinit (runCallbacks b run.callbacks r1.1).1).1,
          r1.2 ++ (runCallbacks b run.callbacks r1.1).2 ++
            (deinit (runCallbacks b run.callbacks r1.1).1).2)).1.sampleSpec = s.sampleSpec := by
    intro r1 h1
    have c := (runCallbacks_frame b run.callbacks r1.1).1
    have d := deinit_frame (runCallbacks b run.callbacks r1.1).1
    generalize runCallbacks b run.callbacks r1.1 = r2 at c d ⊢
    generalize deinit r2.1 = r3 at d ⊢
    obtain ⟨-, -, -, -, -, c6, -⟩ := c
    obtain ⟨-, -, -, -, -, -, d6, -⟩ := d
    split_ifs
    · show r2.1.sampleSpec = s.sampleSpec
      rw [c6, h1]
    · show r2.1.sampleSpec = s.sampleSpec
      rw [c6, h1]
    · show r3.1.sampleSpec = s.sampleSpec
      rw [d6, c6, h1]
  unfold doPulseIteration
  simp only []
  by_cases hw : (worker.screenCaptureItems.isEmpty && worker.audioCaptureItems.isEmpty) = true
  · simp only [hw, if_true]
    exact key (stop b s) (stop_frame b s).2.2.2.2.2.1
  · simp only [hw, if_false]
    exact key (s, []) rfl

theorem liveStreamsAfter_append (live : List Handle) (xs ys : List Effect) :
    liveStreamsAfter live (xs ++ ys) = liveStreamsAfter (liveStreamsAfter live xs) ys := by
  induction xs generalizing live with
  | nil => rfl
  | cons x xs ih => simp [liveStreamsAfter, ih]

theorem liveStreamsTrace_append (live : List Handle) (xs ys : List Effect) (l : List Handle) :
    l ∈ liveStreamsTrace live (xs ++ ys) ↔
      l ∈ liveStreamsTrace live xs ∨ l ∈ liveStreamsTrace (liveStreamsAfter live xs) ys := by
  induction xs generalizing live with
  | nil =>
    cases ys with
    | nil => simp [liveStreamsTrace, liveStreamsAfter]
    | cons y ys => simp [liveStreamsTrace, liveStreamsAfter]
  | cons x xs ih => simp [liveStreamsTrace, liveStreamsAfter, ih, or_assoc]

theorem liveStreamsStep_of_not_streamCall (live : List Handle) (e : Effect)
    (h : isStreamCall e = false) : liveStreamsStep live e = live := by
  cases e <;> first | rfl | simp [isStreamCall] at h

theorem NoStreamCall.after {es : List Effect} (h : NoStreamCall es) (live : List Handle) :
    liveStreamsAfter live es = live := by
  induction es generalizing live with
  | nil => rfl
  | cons e es ih =>
    have he := liveStreamsStep_of_not_streamCall live e (h e (List.mem_cons_self _ _))
    simp only [liveStreamsAfter, he]
    exact ih (fun e2 h2 => h e2 (List.mem_cons_of_mem _ h2)) live

theorem NoStreamCall.trace {es : List Effect} (h : NoStreamCall es) (live l : List Handle)
    (hl : l ∈ liveStreamsTrace live es) : l = live := by
  induction es generalizing live with
  | nil => simpa [liveStreamsTrace] using hl
  | cons e es ih =>
    have he := liveStreamsStep_of_not_streamCall live e (h e (List.mem_cons_self _ _))
    simp only [liveStreamsTrace, he, List.mem_cons] at hl
    rcases hl with hl | hl
    · exact hl
    · exact ih (fun e2 h2 => h e2 (List.mem_cons_of_mem _ h2)) live hl

theorem muteConnectedSinkInput_noStreamCall (b : Build) (s : PulseAudioSource) :
    NoStreamCall (muteConnectedSinkInput b s).2 := by
  unfold muteConnectedSinkInput
  split_ifs <;> simp [NoStreamCall, isStreamCall]

theorem unmuteConnectedSinkInput_noStreamCall (b : Build) (s : PulseAudioSource) :
    NoStreamCall (unmuteConnectedSinkInput b s).2 := by
  unfold unmuteConnectedSinkInput
  split_ifs <;> simp [NoStreamCall, isStreamCall]

theorem stopRecordStream_effects (b : Build) (s : PulseAudioSource) :
    (stopRecordStream b s).2 =
      if s.stream.isSome then
        (unmuteConnectedSinkInput b s).2 ++
          [Effect.pa_stream_disconnect s.stream, Effect.pa_stream_unref s.stream]
      else [] := by
  unfold stopRecordStream
  split_ifs <;> rfl

theorem stopRecordStream_connectedSinkInput (b : Build) (s : PulseAudioSource) :
    (stopRecordStream b s).1.connectedSinkInput =
      if s.stream.isSome then PA_INVALID_INDEX else s.connectedSinkInput := by
  unfold stopRecordStream
  split_ifs <;> rfl

theorem NoStreamCall.concat {xs ys : List Effect} (hx : NoStreamCall xs)
    (hy : NoStreamCall ys) : NoStreamCall (xs ++ ys) := by
  intro e he
  rcases List.mem_append.mp he with h | h
  · exact hx e h
  · exact hy e h

theorem liveStreams_release (old : Option Handle) (pre : List Effect)
    (hpre : NoStreamCall pre) :
    liveStreamsAfter old.toList
      (if old.isSome then
        pre ++ [Effect.pa_stream_disconnect old, Effect.pa_stream_unref old] else []) = [] ∧
    ∀ l ∈ liveStreamsTrace old.toList
      (if old.isSome then
        pre ++ [Effect.pa_stream_disconnect old, Effect.pa_stream_unref old] else []),
      l.length ≤ 1 := by
  cases old with
  | none => simp [liveStreamsAfter, liveStreamsTrace]
  | some h =>
    simp only [Option.isSome_some, if_true, Option.toList_some]
    refine ⟨?_, ?_⟩
    · rw [liveStreamsAfter_append, hpre.after]
      simp [liveStreamsAfter, liveStreamsStep]
    · intro l hl
      rw [liveStreamsTrace_append, hpre.after] at hl
      rcases hl with hl | hl
      · rw [hpre.trace _ _ hl]
        simp
      · simp only [liveStreamsTrace, liveStreamsStep, List.mem_cons, List.mem_singleton,
          List.not_mem_nil, or_false] at hl
        rcases hl with hl | hl | hl <;> simp [hl]

theorem liveStreams_create (new : Option Handle) (ctx : Option Handle) (spec : pa_sample_spec)
    (n1 n2 : List Effect) (h1 : NoStreamCall n1) (h2 : NoStreamCall n2) (release : Bool) :
    liveStreamsAfter []
      ([Effect.pa_stream_new ctx spec new] ++ n1 ++
        (if release then [Effect.pa_stream_unref new] else []) ++ n2) =
      (if release then [] else new.toList) ∧
    ∀ l ∈ liveStreamsTrace []
      ([Effect.pa_stream_new ctx spec new] ++ n1 ++
        (if release then [Effect.pa_stream_unref new] else []) ++ n2),
      l.length ≤ 1 := by
  have hstep : liveStreamsAfter [] [Effect.pa_stream_new ctx spec new] = new.toList := by
    cases new <;> simp [liveStreamsAfter, liveStreamsStep]
  have hfirst : ∀ l ∈ liveStreamsTrace [] [Effect.pa_stream_new ctx spec new], l.length ≤ 1 := by
    intro l hl
    cases new <;>
      simp only [liveStreamsTrace, liveStreamsStep, List.mem_cons, List.mem_singleton,
        List.not_mem_nil, or_false] at hl <;>
      rcases hl with hl | hl <;> simp [hl]
  have hrel : liveStreamsAfter new.toList
      (if release then [Effect.pa_stream_unref new] else []) =
      (if release then [] else new.toList) := by
    cases release <;> cases new <;> simp [liveStreamsAfter, liveStreamsStep]
  have hrelT : ∀ l ∈ liveStreamsTrace new.toList
      (if release then [Effect.pa_stream_unref new] else []), l.length ≤ 1 := by
    intro l hl
    cases release <;> cases new <;>
      simp only [liveStreamsTrace, liveStreamsStep, List.mem_cons, List.mem_singleton,
        List.not_mem_nil, or_false, if_true, if_false, Bool.false_eq_true] at hl <;>
      first
      | (rcases hl with hl | hl <;> simp [hl])
      | simp [hl]
  refine ⟨?_, ?_⟩
  · rw [liveStreamsAfter_append, liveStreamsAfter_append, liveStreamsAfter_append, hstep,
      h1.after, hrel, h2.after]
  · intro l hl
    simp only [liveStreamsTrace_append, liveStreamsAfter_append, hstep, h1.after, hrel] at hl
    rcases hl with ((hl | hl) | hl) | hl
    · exact hfirst l hl
    · rw [h1.trace _ _ hl]
      cases new <;> simp
    · exact hrelT l hl
    · rw [h2.trace _ _ hl]
      cases release <;> cases new <;> simp

theorem silenceCount_append (xs ys : List Effect) :
    silenceCount (xs ++ ys) = silenceCount xs + silenceCount ys := by
  simp [silenceCount, List.countP_append]

theorem timerStartCount_append (xs ys : List Effect) :
    timerStartCount (xs ++ ys) = timerStartCount xs + timerStartCount ys := by
  simp [timerStartCount, List.countP_append]

theorem silenceCount_nil : silenceCount [] = 0 := rfl

theorem timerStartCount_nil : timerStartCount [] = 0 := rfl

theorem silenceCount_silence (n : Int) :
    silenceCount [Effect.dispatchPulseData none n] = 1 := rfl

theorem timerStartCount_silence (n : Int) :
    timerStartCount [Effect.dispatchPulseData none n] = 0 := rfl

theorem silenceCount_silence_timerStart (n : Int) :
    silenceCount [Effect.dispatchPulseData none n, Effect.iterationTimerStart] = 1 := rfl

theorem timerStartCount_silence_timerStart (n : Int) :
    timerStartCount [Effect.dispatchPulseData none n, Effect.iterationTimerStart] = 1 := rfl

theorem silenceCount_timerStart : silenceCount [Effect.iterationTimerStart] = 0 := rfl

theorem timerStartCount_timerStart : timerStartCount [Effect.iterationTimerStart] = 1 := rfl

theorem doPulseIteration_with_subscribers (b : Build) (worker : Worker) (run : MainloopRun)
    (s : PulseAudioSource)
    (hsub : ¬ (worker.screenCaptureItems = [] ∧ worker.audioCaptureItems = [])) :
    doPulseIteration b worker run s =
      if (run.ret == 0 && !(runCallbacks b run.callbacks s).1.shutdown) = true then
        ({ (runCallbacks b run.callbacks s).1 with iterationTimerActive := true },
          (runCallbacks b run.callbacks s).2 ++
            (if (runCallbacks b run.callbacks s).1.stream.isNone = true then
              [Effect.dispatchPulseData none (runCallbacks b run.callbacks s).1.nullDataSize]
            else []) ++ [Effect.iterationTimerStart])
      else
        ((deinit (runCallbacks b run.callbacks s).1).1,
          (runCallbacks b run.callbacks s).2 ++ (deinit (runCallbacks b run.callbacks s).1).2) := by
  have hw : (worker.screenCaptureItems.isEmpty && worker.audioCaptureItems.isEmpty) = false := by
    cases h1 : worker.screenCaptureItems <;> cases h2 : worker.audioCaptureItems <;>
      simp_all
  unfold doPulseIteration
  simp [hw]

theorem start_handles (env : InitEnv) (s : PulseAudioSource) :
    (inited s = true → (start env s).2.1.ml = s.ml ∧ (start env s).2.1.mla = s.mla ∧
      (start env s).2.1.ctx = s.ctx) ∧
    (inited s = false → (start env s).2.1.ml = (init env s).2.1.ml ∧
      (start env s).2.1.mla = (init env s).2.1.mla ∧
      (start env s).2.1.ctx = (init env s).2.1.ctx) := by
  unfold start
  generalize init env s = r
  cases hi : inited s <;> cases hr : r.1 <;> cases ht : r.2.1.iterationTimerActive <;>
    cases ht2 : s.iterationTimerActive <;> simp [hr, ht, ht2]

theorem doPulseIteration_handles (b : Build) (worker : Worker) (run : MainloopRun)
    (s : PulseAudioSource) :
    ((doPulseIteration b worker run s).1.ml = s.ml ∧
      (doPulseIteration b worker run s).1.mla = s.mla ∧
      (doPulseIteration b worker run s).1.ctx = s.ctx) ∨
    ((doPulseIteration b worker run s).1.ml = none ∧
      (doPulseIteration b worker run s).1.ctx = none ∧
      ((s.ml = none → s.mla = none) → (doPulseIteration b worker run s).1.mla = none)) := by
  have key : ∀ r1 : PulseAudioSource × List Effect,
      r1.1.ml = s.ml → r1.1.mla = s.mla → r1.1.ctx = s.ctx →
      ∀ r : PulseAudioSource × List Effect,
      r = (if (run.ret == 0 && !(runCallbacks b run.callbacks r1.1).1.shutdown) = true then
        ({ (runCallbacks b run.callbacks r1.1).1 with iterationTimerActive := true },
          r1.2 ++ (runCallbacks b run.callbacks r1.1).2 ++
            (if (runCallbacks b run.callbacks r1.1).1.stream.isNone = true then
              [Effect.dispatchPulseData none (runCallbacks b run.callbacks r1.1).1.nullDataSize]
            else []) ++ [Effect.iterationTimerStart])
      else
        ((deinit (runCallbacks b run.callbacks r1.1).1).1,
          r1.2 ++ (runCallbacks b run.callbacks r1.1).2 ++
            (deinit (runCallbacks b run.callbacks r1.1).1).2)) →
      (r.1.ml = s.ml ∧ r.1.mla = s.mla ∧ r.1.ctx = s.ctx) ∨
      (r.1.ml = none ∧ r.1.ctx = none ∧ ((s.ml = none → s.mla = none) → r.1.mla = none)) := by
    intro r1 h1 h2 h3 r hr
    have c := (runCallbacks_frame b run.callbacks r1.1).1
    have d := deinit_frame (runCallbacks b run.callbacks r1.1).1
    generalize runCallbacks b run.callbacks r1.1 = r2 at c d hr
    generalize deinit r2.1 = r3 at d hr
    obtain ⟨c1, c2, c3, -⟩ := c
    obtain ⟨d1, d2, -, d4, -⟩ := d
    by_cases hc : (run.ret == 0 && !r2.1.shutdown) = true
    · left
      rw [if_pos hc] at hr
      subst hr
      exact ⟨c1.trans h1, c2.trans h2, c3.trans h3⟩
    · right
      rw [if_neg hc] at hr
      subst hr
      refine ⟨d2, d1, fun h => d4 ?_⟩
      rw [c1, c2, h1, h2]
      exact h
  unfold doPulseIteration
  simp only []
  by_cases hw : (worker.screenCaptureItems.isEmpty && worker.audioCaptureItems.isEmpty) = true
  · simp only [hw, if_true]
    obtain ⟨-, a2, a3, a4, -⟩ := stop_frame b s
    exact key (stop b s) a2 a3 a4 _ rfl
  · simp only [hw, if_false]
    exact key (s, []) rfl rfl rfl _ rfl

theorem applyOp_handlesConsistent (b : Build) (op : Op) (s : PulseAudioSource)
    (hs : handlesConsistent s = true) (ha : admissible b [op] s = true) :
    handlesConsistent (applyOp b op s) = true := by
  have hml : s.ml = none → s.mla = none := by
    intro h
    cases hm : s.mla <;> simp_all [handlesConsistent]
  have hinit : ∀ env : InitEnv, env.mainloopOk = true →
      handlesConsistent (init env s).2.1 = true := by
    intro env hok
    obtain ⟨-, f2, f3, -⟩ := init_frame env s
    cases hr : (init env s).1
    · obtain ⟨g1, g2, g3⟩ := f2 hr
      simp [handlesConsistent, g1, g2, g3]
    · obtain ⟨g1, g2, g3, g4⟩ := f3 hr
      cases hm : env.newMainloop <;> cases hp : env.api <;> cases hc : env.newContext <;>
        simp_all [handlesConsistent, InitEnv.mainloopOk]
  cases op with
  | init env =>
    simp only [admissible, Bool.and_true, Bool.and_eq_true] at ha
    exact hinit env ha.2
  | deinit =>
    obtain ⟨d1, d2, -, d4, -⟩ := deinit_frame s
    simp [applyOp, handlesConsistent, d1, d2, d4 hml]
  | start env =>
    simp only [admissible, Bool.and_true, Bool.or_eq_true] at ha
    obtain ⟨s1, s2⟩ := start_handles env s
    cases hi : inited s
    · obtain ⟨g1, g2, g3⟩ := s2 hi
      have hok : env.mainloopOk = true := by
        rcases ha with h | h
        · rw [hi] at h
          cases h
        · exact h
      have := hinit env hok
      simpa [applyOp, handlesConsistent, g1, g2, g3] using this
    · obtain ⟨g1, g2, g3⟩ := s1 hi
      simpa [applyOp, handlesConsistent, g1, g2, g3] using hs
  | stop =>
    obtain ⟨-, a2, a3, a4, -⟩ := stop_frame b s
    simpa [applyOp, handlesConsistent, a2, a3, a4] using hs
  | doPulseIteration worker run =>
    rcases doPulseIteration_handles b worker run s with ⟨g1, g2, g3⟩ | ⟨g1, g2, g3⟩
    · simpa [applyOp, handlesConsistent, g1, g2, g3] using hs
    · simp [applyOp, handlesConsistent, g1, g2, g3 hml]

theorem runOps_handlesConsistent (b : Build) (ops : List Op) (s : PulseAudioSource)
    (hs : handlesConsistent s = true) (ha : admissible b ops s = true) :
    handlesConsistent (runOps b ops s) = true := by
  induction ops generalizing s with
  | nil => exact hs
  | cons op ops ih =>
    simp only [admissible, Bool.and_eq_true] at ha
    apply ih
    · apply applyOp_handlesConsistent b op s hs
      simp only [admissible, Bool.and_true]
      exact ha.1
    · exact ha.2

theorem deinit_idempotent (s : PulseAudioSource) : (deinit (deinit s).1).1 = (deinit s).1 := by
  unfold deinit
  cases hc : s.ctx <;> cases hm : s.ml <;> simp [hc, hm]

theorem streamNames_append (xs ys : List Effect) :
    streamNames (xs ++ ys) = streamNames xs ++ streamNames ys := by
  induction xs with
  | nil => rfl
  | cons x xs ih => cases x <;> simp [streamNames, ih]

theorem muteConnectedSinkInput_names (b : Build) (s : PulseAudioSource) :
    streamNames (muteConnectedSinkInput b s).2 = [] := by
  unfold muteConnectedSinkInput
  split_ifs <;> rfl

theorem unmuteConnectedSinkInput_names (b : Build) (s : PulseAudioSource) :
    streamNames (unmuteConnectedSinkInput b s).2 = [] := by
  unfold unmuteConnectedSinkInput
  split_ifs <;> rfl

theorem stopRecordStream_names (b : Build) (s : PulseAudioSource) :
    streamNames (stopRecordStream b s).2 = [] := by
  rw [stopRecordStream_effects]
  split_ifs
  · rw [streamNames_append, unmuteConnectedSinkInput_names]
    rfl
  · rfl

theorem stopRecordStream_of_none (b : Build) (s : PulseAudioSource) (h : s.stream = none) :
    stopRecordStream b s = (s, []) := by
  unfold stopRecordStream
  simp [h]

theorem startRecordStream_outcome (b : Build) (env : StreamEnv) (ctx : Option Handle) (si : Nat)
    (s : PulseAudioSource) :
    ((startRecordStream b env ctx si s).1 = true ↔
      (0 ≤ env.monitorRet ∧ 0 ≤ env.connectRet)) ∧
    ((startRecordStream b env ctx si s).1 = true →
      (startRecordStream b env ctx si s).2.1.connectedSinkInput = si ∧
      (startRecordStream b env ctx si s).2.1.stream = env.newStream) ∧
    ((startRecordStream b env ctx si s).1 = false →
      (startRecordStream b env ctx si s).2.1.stream = none ∧
      (startRecordStream b env ctx si s).2.1.connectedSinkInput = PA_INVALID_INDEX) ∧
    streamNames (startRecordStream b env ctx si s).2.2 = [] := by
  have n0 := stopRecordStream_names b s
  unfold startRecordStream
  generalize stopRecordStream b s = r0 at n0 ⊢
  have m := muteConnectedSinkInput_frame b
    { r0.1 with stream := env.newStream, connectedSinkInput := si }
  have mn := muteConnectedSinkInput_names b
    { r0.1 with stream := env.newStream, connectedSinkInput := si }
  simp only [] at m mn ⊢
  generalize muteConnectedSinkInput b _ = r2 at m mn ⊢
  have un := unmuteConnectedSinkInput_names b r2.1
  generalize unmuteConnectedSinkInput b r2.1 = r3 at un ⊢
  obtain ⟨-, -, m3, m4, -, -⟩ := m
  by_cases hm : env.monitorRet < 0
  · simp only [hm, if_true]
    refine ⟨by simp; omega, by simp, by simp, ?_⟩
    simp [streamNames_append, n0, mn, un, streamNames]
  · by_cases hc : env.connectRet < 0
    · simp only [hm, hc, if_true, if_false]
      refine ⟨by simp; omega, by simp, by simp, ?_⟩
      simp [streamNames_append, n0, mn, un, streamNames]
    · simp only [hm, hc, if_false]
      refine ⟨by simp; omega, fun _ => ⟨m4, m3⟩, by simp, ?_⟩
      simp [streamNames_append, n0, mn, streamNames]

theorem discoverStream_not_inited (b : Build) (env : StreamEnv) (s : PulseAudioSource)
    (hi : inited s = false) : discoverStream b env s = (s, []) := by
  unfold discoverStream
  simp [hi]

theorem discoverStream_none (b : Build) (env : StreamEnv) (s : PulseAudioSource)
    (hi : inited s = true)
    (hf : s.sinkInputs.find? (fun e => eligibleSinkInput s.clients e.2) = none) :
    discoverStream b env s =
      ((stopRecordStream b s).1,
        Effect.updatePulseStreamName "" :: (stopRecordStream b s).2) := by
  simp only [eligibleSinkInput] at hf
  unfold discoverStream
  simp only [hi, if_true]
  rw [hf]

theorem discoverStream_some (b : Build) (env : StreamEnv) (s : PulseAudioSource)
    (e : Nat × SinkInput) (hi : inited s = true)
    (hf : s.sinkInputs.find? (fun e => eligibleSinkInput s.clients e.2) = some e) :
    discoverStream b env s =
      if (s.connectedSinkInput != e.2.idx) = true then
        if (startRecordStream b env s.ctx e.2.idx s).1 = true then
          ((startRecordStream b env s.ctx e.2.idx s).2.1,
            (startRecordStream b env s.ctx e.2.idx s).2.2 ++
              [Effect.updatePulseStreamName
                (QHash.value ({} : Client) s.clients e.2.clientIdx).name])
        else
          ((startRecordStream b env s.ctx e.2.idx s).2.1,
            (startRecordStream b env s.ctx e.2.idx s).2.2 ++
              [Effect.updatePulseStreamName ""])
      else
        (s, [Effect.updatePulseStreamName
          (QHash.value ({} : Client) s.clients e.2.clientIdx).name]) := by
  simp only [eligibleSinkInput] at hf
  unfold discoverStream
  simp only [hi, if_true]
  rw [hf]

/-- What `discoverStream()` does in an inited state, by the first eligible sink
input `e` (if any): nothing eligible, already connected to `e`, newly connected
to `e`, or failed to connect to `e`. -/
theorem discoverStream_cases (b : Build) (env : StreamEnv) (s : PulseAudioSource)
    (hi : inited s = true) :
    ((∀ e ∈ s.sinkInputs, eligibleSinkInput s.clients e.2 = false) ∧
      (discoverStream b env s).1 = (stopRecordStream b s).1 ∧
      streamNames (discoverStream b env s).2 = [""]) ∨
    (∃ e ∈ s.sinkInputs, eligibleSinkInput s.clients e.2 = true ∧
      ((s.connectedSinkInput = e.2.idx ∧ (discoverStream b env s).1 = s ∧
          streamNames (discoverStream b env s).2 =
            [(QHash.value ({} : Client) s.clients e.2.clientIdx).name]) ∨
       (s.connectedSinkInput ≠ e.2.idx ∧ 0 ≤ env.monitorRet ∧ 0 ≤ env.connectRet ∧
          (discoverStream b env s).1.connectedSinkInput = e.2.idx ∧
          (discoverStream b env s).1.stream = env.newStream ∧
          streamNames (discoverStream b env s).2 =
            [(QHash.value ({} : Client) s.clients e.2.clientIdx).name]) ∨
       (s.connectedSinkInput ≠ e.2.idx ∧ (env.monitorRet < 0 ∨ env.connectRet < 0) ∧
          (discoverStream b env s).1.connectedSinkInput = PA_INVALID_INDEX ∧
          (discoverStream b env s).1.stream = none ∧
          streamNames (discoverStream b env s).2 = [""]))) := by
  cases hf : s.sinkInputs.find? (fun e => eligibleSinkInput s.clients e.2) with
  | none =>
    left
    rw [discoverStream_none b env s hi hf]
    refine ⟨?_, rfl, ?_⟩
    · intro e he
      have := List.find?_eq_none.mp hf e he
      simpa using this
    · simp [streamNames, stopRecordStream_names]
  | some e =>
    right
    have hmem : e ∈ s.sinkInputs := List.mem_of_find?_eq_some hf
    have hel : eligibleSinkInput s.clients e.2 = true := by
      have := List.find?_some hf
      simpa using this
    refine ⟨e, hmem, hel, ?_⟩
    rw [discoverStream_some b env s e hi hf]
    obtain ⟨o1, o2, o3, o4⟩ := startRecordStream_outcome b env s.ctx e.2.idx s
    by_cases hc : s.connectedSinkInput = e.2.idx
    · left
      simp [hc, streamNames]
    · right
      have hne : (s.connectedSinkInput != e.2.idx) = true := by simpa using hc
      simp only [hne, if_true]
      cases hr : (startRecordStream b env s.ctx e.2.idx s).1
      · right
        obtain ⟨g1, g2⟩ := o3 hr
        have hfail : env.monitorRet < 0 ∨ env.connectRet < 0 := by
          by_contra hcon
          have : (startRecordStream b env s.ctx e.2.idx s).1 = true := o1.mpr (by omega)
          rw [hr] at this
          cases this
        refine ⟨hc, hfail, ?_, ?_, ?_⟩
        · simpa using g2
        · simpa using g1
        · simp [streamNames_append, o4, streamNames]
      · left
        obtain ⟨g1, g2⟩ := o2 hr
        obtain ⟨k1, k2⟩ := o1.mp hr
        refine ⟨hc, k1, k2, ?_, ?_, ?_⟩
        · simpa using g1
        · simpa using g2
        · simp [streamNames_append, o4, streamNames]

theorem QHash.contains_remove {α : Type} (h : QHash α) (k : Nat) :
    QHash.contains (QHash.remove h k) k = false := by
  simp [QHash.contains, QHash.remove]

theorem QHash.mem_remove {α : Type} (h : QHash α) (k : Nat) (e : Nat × α)
    (he : e ∈ QHash.remove h k) : e ∈ h ∧ e.1 ≠ k := by
  simpa [QHash.remove] using he

theorem stopRecordStream_recordInv (b : Build) (s : PulseAudioSource) (h : RecordInv s) :
    RecordInv (stopRecordStream b s).1 := by
  obtain ⟨-, -, -, -, p5⟩ := stopRecordStream_frame b s
  have pc := stopRecordStream_connectedSinkInput b s
  refine ⟨by rw [p5]; exact h.1, fun _ => ?_⟩
  rw [pc]
  cases hst : s.stream with
  | none => simpa using h.2 hst
  | some v => simp

theorem startRecordStream_recordInv (b : Build) (env : StreamEnv) (ctx : Option Handle)
    (si : Nat) (s : PulseAudioSource) (h : RecordInv s) (hok : env.streamOk = true) :
    RecordInv (startRecordStream b env ctx si s).2.1 := by
  obtain ⟨-, -, -, f4⟩ := startRecordStream_frame b env ctx si s
  obtain ⟨-, o2, o3, -⟩ := startRecordStream_outcome b env ctx si s
  refine ⟨by rw [f4]; exact h.1, fun hnone => ?_⟩
  cases hr : (startRecordStream b env ctx si s).1
  · exact (o3 hr).2
  · have := (o2 hr).2
    rw [this] at hnone
    simp [StreamEnv.streamOk, hnone] at hok

theorem discoverStream_recordInv (b : Build) (env : StreamEnv) (s : PulseAudioSource)
    (h : RecordInv s) (hok : env.streamOk = true) :
    RecordInv (discoverStream b env s).1 := by
  cases hi : inited s
  · rw [discoverStream_not_inited b env s hi]
    exact h
  · obtain ⟨-, -, -, f4⟩ := discoverStream_frame b env s
    refine ⟨by rw [f4]; exact h.1, fun hnone => ?_⟩
    rcases discoverStream_cases b env s hi with ⟨-, h2, -⟩ | ⟨e, -, -, hc⟩
    · rw [h2] at hnone ⊢
      exact (stopRecordStream_recordInv b s h).2 hnone
    · rcases hc with ⟨-, k2, -⟩ | ⟨-, -, -, -, k5, -⟩ | ⟨-, -, k3, -, -⟩
      · rw [k2] at hnone ⊢
        exact h.2 hnone
      · rw [k5] at hnone
        simp [StreamEnv.streamOk, hnone] at hok
      · exact k3

theorem QHash.modify_keys (h : QHash SinkInput) (k : Nat) (f : SinkInput → SinkInput)
    (hk : ∀ si, (f si).idx = k) (hinv : ∀ e ∈ h, e.2.idx = e.1) :
    ∀ e ∈ QHash.modify ({} : SinkInput) h k f, e.2.idx = e.1 := by
  intro e he
  unfold QHash.modify at he
  split_ifs at he
  · obtain ⟨a, ha, rfl⟩ := List.mem_map.mp he
    by_cases hak : (a.1 == k) = true
    · simp only [hak, if_true]
      rw [hk]
      have : a.1 = k := by simpa using hak
      exact this.symm
    · simp only [hak, if_false]
      exact hinv a ha
  · rcases List.mem_append.mp he with he | he
    · exact hinv e he
    · simp only [List.mem_singleton] at he
      subst he
      exact hk _

theorem runCallback_recordInv (b : Build) (cb : Callback) (s : PulseAudioSource)
    (h : RecordInv s) (hok : cb.streamOk = true) : RecordInv (runCallback b cb s).1 := by
  cases cb with
  | state st =>
    simp only [runCallback, stateCallback]
    split <;> exact h
  | successSubscribe success =>
    simp only [runCallback, successSubscribeCallback]
    split_ifs <;> exact h
  | subscription t idx env =>
    have hrem : RecordInv { s with sinkInputs := QHash.remove s.sinkInputs idx } :=
      ⟨fun e he => h.1 e (QHash.mem_remove _ _ e he).1, h.2⟩
    have hd := discoverStream_recordInv b env _ hrem hok
    simp only [runCallback, subscriptionCallback]
    split_ifs
    · exact h
    · exact hd
    · exact h
    · exact h
    · exact ⟨h.1, h.2⟩
    · exact h
    · exact h
  | sinkInputInfo i eol env =>
    simp only [runCallback, sinkInputInfoCallback]
    split_ifs
    · refine ⟨?_, h.2⟩
      exact QHash.modify_keys s.sinkInputs i.index
        (fun si => { si with idx := i.index, clientIdx := i.client, name := i.name,
                             corked := i.corked })
        (fun _ => rfl) h.1
    · exact discoverStream_recordInv b env s h hok
  | clientInfo i eol =>
    simp only [runCallback, clientInfoCallback]
    split_ifs
    · exact ⟨h.1, h.2⟩
    · exact ⟨h.1, h.2⟩
    · exact h
  | streamRequest stream nbytes peek =>
    simp only [runCallback, streamRequestCallback]
    split_ifs <;> exact h
  | contextSuccess success =>
    exact h

theorem runCallbacks_recordInv (b : Build) (cbs : List Callback) (s : PulseAudioSource)
    (h : RecordInv s) (hok : cbs.all Callback.streamOk = true) :
    RecordInv (runCallbacks b cbs s).1 := by
  induction cbs generalizing s with
  | nil => exact h
  | cons cb rest ih =>
    simp only [List.all_cons, Bool.and_eq_true] at hok
    exact ih _ (runCallback_recordInv b cb s h hok.1) hok.2

theorem RecordInv.of_eq {s t : PulseAudioSource} (h : RecordInv s)
    (h1 : t.sinkInputs = s.sinkInputs) (h2 : t.stream = s.stream)
    (h3 : t.connectedSinkInput = s.connectedSinkInput) : RecordInv t := by
  refine ⟨by rw [h1]; exact h.1, ?_⟩
  rw [h2, h3]
  exact h.2

theorem start_record (env : InitEnv) (s : PulseAudioSource) :
    (start env s).2.1.sinkInputs = s.sinkInputs ∧ (start env s).2.1.stream = s.stream ∧
    (start env s).2.1.connectedSinkInput = s.connectedSinkInput := by
  have a := init_frame env s
  unfold start
  generalize init env s = r at a ⊢
  obtain ⟨-, -, -, -, -, -, -, -, a9, a10, -, a12, -⟩ := a
  cases hi : inited s <;> cases hr : r.1 <;> cases ht : r.2.1.iterationTimerActive <;>
    cases ht2 : s.iterationTimerActive <;> simp [hr, ht, ht2, a9, a10, a12]

theorem stop_recordInv (b : Build) (s : PulseAudioSource) (h : RecordInv s) :
    RecordInv (stop b s).1 := by
  have h2 : RecordInv { s with shutdown := true } := ⟨h.1, h.2⟩
  have a := stopRecordStream_recordInv b _ h2
  unfold stop
  simp only []
  split_ifs
  · exact a
  · exact h2

theorem doPulseIteration_recordInv (b : Build) (worker : Worker) (run : MainloopRun)
    (s : PulseAudioSource) (h : RecordInv s)
    (hok : run.callbacks.all Callback.streamOk = true) :
    RecordInv (doPulseIteration b worker run s).1 := by
  have key : ∀ r1 : PulseAudioSource × List Effect, RecordInv r1.1 →
      RecordInv (if (run.ret == 0 && !(runCallbacks b run.callbacks r1.1).1.shutdown) = true then
        ({ (runCallbacks b run.callbacks r1.1).1 with iterationTimerActive := true },
          r1.2 ++ (runCallbacks b run.callbacks r1.1).2 ++
            (if (runCallbacks b run.callbacks r1.1).1.stream.isNone = true then
              [Effect.dispatchPulseData none (runCallbacks b run.callbacks r1.1).1.nullDataSize]
            else []) ++ [Effect.iterationTimerStart])
      else
        ((deinit (runCallbacks b run.callbacks r1.1).1).1,
          r1.2 ++ (runCallbacks b run.callbacks r1.1).2 ++
            (deinit (runCallbacks b run.callbacks r1.1).1).2)).1 := by
    intro r1 h1
    have c := runCallbacks_recordInv b run.callbacks r1.1 h1 hok
    have d := deinit_frame (runCallbacks b run.callbacks r1.1).1
    generalize runCallbacks b run.callbacks r1.1 = r2 at c d ⊢
    generalize deinit r2.1 = r3 at d ⊢
    obtain ⟨-, -, -, -, -, -, -, -, -, d10, d11, -, d13, -⟩ := d
    split_ifs
    · exact ⟨c.1, c.2⟩
    · exact ⟨c.1, c.2⟩
    · exact c.of_eq d13 d10 d11
  unfold doPulseIteration
  simp only []
  by_cases hw : (worker.screenCaptureItems.isEmpty && worker.audioCaptureItems.isEmpty) = true
  · simp only [hw, if_true]
    exact key (stop b s) (stop_recordInv b s h)
  · simp only [hw, if_false]
    exact key (s, []) h

theorem applyOp_recordInv (b : Build) (op : Op) (s : PulseAudioSource) (h : RecordInv s)
    (hok : op.streamOk = true) : RecordInv (applyOp b op s) := by
  cases op with
  | init env =>
    obtain ⟨-, -, -, -, -, -, -, -, a9, a10, -, a12, -⟩ := init_frame env s
    exact h.of_eq a12 a9 a10
  | deinit =>
    obtain ⟨-, -, -, -, -, -, -, -, -, d10, d11, -, d13, -⟩ := deinit_frame s
    exact h.of_eq d13 d10 d11
  | start env =>
    obtain ⟨a1, a2, a3⟩ := start_record env s
    exact h.of_eq a1 a2 a3
  | stop => exact stop_recordInv b s h
  | doPulseIteration worker run => exact doPulseIteration_recordInv b worker run s h hok

theorem runOps_recordInv (b : Build) (ops : List Op) (s : PulseAudioSource) (h : RecordInv s)
    (hok : ops.all Op.streamOk = true) : RecordInv (runOps b ops s) := by
  induction ops generalizing s with
  | nil => exact h
  | cons op ops ih =>
    simp only [List.all_cons, Bool.and_eq_true] at hok
    exact ih _ (applyOp_recordInv b op s h hok.1) hok.2

theorem reachedState_recordInv (b : Build) (ops : List Op) (cbs : List Callback)
    (hops : ops.all Op.streamOk = true) (hcbs : cbs.all Callback.streamOk = true) :
    RecordInv (reachedState b ops cbs) :=
  runCallbacks_recordInv b cbs _ (runOps_recordInv b ops initial (by decide) hops) hcbs

theorem sinkInputRemove_recordInv (b : Build) (env : StreamEnv) (t idx : Nat)
    (s : PulseAudioSource) (h : RecordInv s) (hi : inited s = true)
    (hidx : idx ≠ PA_INVALID_INDEX)
    (h1 : t &&& PA_SUBSCRIPTION_EVENT_FACILITY_MASK = PA_SUBSCRIPTION_EVENT_SINK_INPUT)
    (h2 : t &&& PA_SUBSCRIPTION_EVENT_TYPE_MASK = PA_SUBSCRIPTION_EVENT_REMOVE) :
    QHash.contains (subscriptionCallback b env t idx s).1.sinkInputs idx = false ∧
    (subscriptionCallback b env t idx s).1.connectedSinkInput ≠ idx ∧
    (subscriptionCallback b env t idx s).1.clients = s.clients ∧
    (((subscriptionCallback b env t idx s).1.connectedSinkInput = PA_INVALID_INDEX ∧
        (subscriptionCallback b env t idx s).1.stream = none) ∨
      ∃ e ∈ (subscriptionCallback b env t idx s).1.sinkInputs,
        eligibleSinkInput s.clients e.2 = true ∧ e.1 ≠ idx ∧
        e.2.idx = (subscriptionCallback b env t idx s).1.connectedSinkInput) := by
  have hev : subscriptionCallback b env t idx s =
      discoverStream b env { s with sinkInputs := QHash.remove s.sinkInputs idx } := by
    unfold subscriptionCallback
    simp only [h1, h2]
    simp [PA_SUBSCRIPTION_EVENT_REMOVE, PA_SUBSCRIPTION_EVENT_NEW, PA_SUBSCRIPTION_EVENT_CHANGE]
  rw [hev]
  have hrem : RecordInv { s with sinkInputs := QHash.remove s.sinkInputs idx } :=
    ⟨fun e he => h.1 e (QHash.mem_remove _ _ e he).1, h.2⟩
  have hi2 : inited { s with sinkInputs := QHash.remove s.sinkInputs idx } = true := hi
  obtain ⟨-, -, f3, f4⟩ := discoverStream_frame b env
    { s with sinkInputs := QHash.remove s.sinkInputs idx }
  rcases discoverStream_cases b env _ hi2 with ⟨-, h2, -⟩ | ⟨e, he, hel, hc⟩
  · have hs := stopRecordStream_recordInv b _ hrem
    obtain ⟨-, -, p3, -, -⟩ := stopRecordStream_frame b
      { s with sinkInputs := QHash.remove s.sinkInputs idx }
    have hconn : (discoverStream b env
        { s with sinkInputs := QHash.remove s.sinkInputs idx }).1.connectedSinkInput =
        PA_INVALID_INDEX := by
      rw [h2]
      exact hs.2 p3
    refine ⟨?_, ?_, f3, Or.inl ⟨hconn, ?_⟩⟩
    · rw [f4]
      exact QHash.contains_remove _ _
    · rw [hconn]
      exact fun hcon => hidx hcon.symm
    · rw [h2]
      exact p3
  · obtain ⟨hmem, hne⟩ := QHash.mem_remove _ _ e he
    have hidxe : e.2.idx ≠ idx := by
      rw [h.1 e hmem]
      exact hne
    have hel2 : eligibleSinkInput s.clients e.2 = true := hel
    have he2 : e ∈ (discoverStream b env
        { s with sinkInputs := QHash.remove s.sinkInputs idx }).1.sinkInputs := by
      rw [f4]
      exact he
    have hcontains : QHash.contains (discoverStream b env
        { s with sinkInputs := QHash.remove s.sinkInputs idx }).1.sinkInputs idx = false := by
      rw [f4]
      exact QHash.contains_remove _ _
    rcases hc with ⟨k1, k2, -⟩ | ⟨-, -, -, k4, -, -⟩ | ⟨-, -, k3, k5, -⟩
    · have k1b : s.connectedSinkInput = e.2.idx := k1
      have hconn : (discoverStream b env
          { s with sinkInputs := QHash.remove s.sinkInputs idx }).1.connectedSinkInput =
          e.2.idx := by
        rw [k2]
        exact k1b
      refine ⟨hcontains, ?_, f3, Or.inr ⟨e, he2, hel2, hne, hconn.symm⟩⟩
      rw [hconn]
      exact hidxe
    · refine ⟨hcontains, ?_, f3, Or.inr ⟨e, he2, hel2, hne, k4.symm⟩⟩
      rw [k4]
      exact hidxe
    · refine ⟨hcontains, ?_, f3, Or.inl ⟨k3, k5⟩⟩
      rw [k3]
      exact fun hcon => hidx hcon.symm

theorem clientRemove_effect (b : Build) (env : StreamEnv) (t idx : Nat) (s : PulseAudioSource)
    (h1 : t &&& PA_SUBSCRIPTION_EVENT_FACILITY_MASK = PA_SUBSCRIPTION_EVENT_CLIENT)
    (h2 : t &&& PA_SUBSCRIPTION_EVENT_TYPE_MASK = PA_SUBSCRIPTION_EVENT_REMOVE) :
    subscriptionCallback b env t idx s =
      ({ s with clients := QHash.remove s.clients idx }, []) := by
  unfold subscriptionCallback
  simp only [h1, h2]
  simp [PA_SUBSCRIPTION_EVENT_REMOVE, PA_SUBSCRIPTION_EVENT_NEW, PA_SUBSCRIPTION_EVENT_CHANGE,
    PA_SUBSCRIPTION_EVENT_CLIENT, PA_SUBSCRIPTION_EVENT_SINK_INPUT]

theorem doPulseIteration_without_subscribers (b : Build) (worker : Worker)
    (run : MainloopRun) (s : PulseAudioSource)
    (hscreen : worker.screenCaptureItems = []) (haudio : worker.audioCaptureItems = []) :
    inited (doPulseIteration b worker run s).1 = false ∧
    (doPulseIteration b worker run s).1.ctx = none ∧
    (doPulseIteration b worker run s).1.ml = none ∧
    ((s.ml = none → s.mla = none) → (doPulseIteration b worker run s).1.mla = none) ∧
    (doPulseIteration b worker run s).1.started = false ∧
    timerStartCount (doPulseIteration b worker run s).2 = 0 ∧
    (doPulseIteration b worker run s).1.iterationTimerActive = s.iterationTimerActive ∧
    (onTimeout b worker run s).1.iterationTimerActive = false ∧
    silenceCount (doPulseIteration b worker run s).2 = 0 := by
  have key : ∀ s : PulseAudioSource,
      inited (doPulseIteration b worker run s).1 = false ∧
      (doPulseIteration b worker run s).1.ctx = none ∧
      (doPulseIteration b worker run s).1.ml = none ∧
      ((s.ml = none → s.mla = none) → (doPulseIteration b worker run s).1.mla = none) ∧
      (doPulseIteration b worker run s).1.started = false ∧
      timerStartCount (doPulseIteration b worker run s).2 = 0 ∧
      (doPulseIteration b worker run s).1.iterationTimerActive = s.iterationTimerActive ∧
      silenceCount (doPulseIteration b worker run s).2 = 0 := by
    intro s
    have a := stop_frame b s
    have c := runCallbacks_frame b run.callbacks (stop b s).1
    have d := deinit_frame (runCallbacks b run.callbacks (stop b s).1).1
    unfold doPulseIteration
    simp only [hscreen, haudio, List.isEmpty_nil, Bool.and_self, if_true]
    generalize stop b s = r1 at a c d ⊢
    generalize runCallbacks b run.callbacks r1.1 = r2 at c d ⊢
    generalize deinit r2.1 = r3 at d ⊢
    obtain ⟨a1, a2, a3, a4, a5, a6, a7, a8, -, -, a9⟩ := a
    obtain ⟨⟨c1, c2, c3, c4, c5, c6, c7, c8, -⟩, c9⟩ := c
    obtain ⟨d1, d2, d3, d4, -, d5, d6, d7, d8, -, -, -, -, d9⟩ := d
    have hsd : r2.1.shutdown = true := by rw [c5, a1]
    have hq : Quiet (r1.2 ++ r2.2 ++ r3.2) := (a9.append c9).append d9
    simp only [hsd, Bool.not_true, Bool.and_false, Bool.false_eq_true, if_false]
    refine ⟨by simp [inited, d1], d1, d2, ?_, d3, hq.timerStartCount_eq, ?_, hq.silenceCount_eq⟩
    · intro h
      apply d4
      rw [c1, c2, a2, a3]
      exact h
    · rw [d8, c8, a8]
  obtain ⟨k1, k2, k3, k4, k5, k6, k7, k8⟩ := key s
  refine ⟨k1, k2, k3, k4, k5, k6, k7, ?_, k8⟩
  unfold onTimeout
  rw [(key _).2.2.2.2.2.2.1]

/-- C1.  In every state of `PulseAudioSource` in which `mla` is null whenever
`ml` is (the two are only ever assigned together, so this holds in every
state with the three handles all null or all non-null), with no capture
subscriber (`screenCaptureItems` and `audioCaptureItems` both empty), one call
of `doPulseIteration()` stops the producer, whatever the main loop dispatches
and returns: afterwards `inited()` is false, `ml`, `mla` and `ctx` are all null,
`started` is false, `iterationTimer.start()` was not called (the timer keeps its
state, and is inactive when the call came from the timer), and
`doPulseIteration()` dispatched no silence buffer. -/
theorem C1_doPulseIteration_without_subscribers (b : Build) (worker : Worker)
    (run : MainloopRun) (s : PulseAudioSource)
    (hscreen : worker.screenCaptureItems = []) (haudio : worker.audioCaptureItems = [])
    (hml : s.ml = none → s.mla = none) :
    inited (doPulseIteration b worker run s).1 = false ∧
    (doPulseIteration b worker run s).1.ml = none ∧
    (doPulseIteration b worker run s).1.mla = none ∧
    (doPulseIteration b worker run s).1.ctx = none ∧
    (doPulseIteration b worker run s).1.started = false ∧
    timerStartCount (doPulseIteration b worker run s).2 = 0 ∧
    (doPulseIteration b worker run s).1.iterationTimerActive = s.iterationTimerActive ∧
    (onTimeout b worker run s).1.iterationTimerActive = false ∧
    silenceCount (doPulseIteration b worker run s).2 = 0 := by
  obtain ⟨k1, k2, k3, k4, k5, k6, k7, k8, k9⟩ :=
    doPulseIteration_without_subscribers b worker run s hscreen haudio
  exact ⟨k1, k3, k4 hml, k2, k5, k6, k7, k8, k9⟩

/-- Witness of C1: the recording example state has its three handles set; with
no subscriber, they are all null after the call. -/
theorem C1_doPulseIteration_without_subscribers_witness :
    idleWorker.screenCaptureItems = [] ∧ idleWorker.audioCaptureItems = [] ∧
    handlesConsistent recordingState = true ∧
    (recordingState.ml = none → recordingState.mla = none) ∧
    inited (doPulseIteration desktopBuild idleWorker quietRun recordingState).1 = false ∧
    (doPulseIteration desktopBuild idleWorker quietRun recordingState).1.mla = none :=
  ⟨rfl, rfl, by decide, by decide,
    (C1_doPulseIteration_without_subscribers desktopBuild idleWorker quietRun recordingState
      rfl rfl (by decide)).1,
    (C1_doPulseIteration_without_subscribers desktopBuild idleWorker quietRun recordingState
      rfl rfl (by decide)).2.2.1⟩

/-- C3.  `stop()` always sets `shutdown`.  When the source is inited at entry,
afterwards `stream` is null, a stream connected at entry has been disconnected
and released and `connectedSinkInput` is `PA_INVALID_INDEX`, and `ml`, `mla`,
`ctx`, `clients` and `sinkInputs` are unchanged.  When the source is not inited
at entry, `shutdown` is the only field that changes and nothing is called. -/
theorem C3_stop (b : Build) (s : PulseAudioSource) :
    (stop b s).1.shutdown = true ∧
    (inited s = true →
      (stop b s).1.stream = none ∧
      (∀ h, s.stream = some h →
        (stop b s).1.connectedSinkInput = PA_INVALID_INDEX ∧
        Effect.pa_stream_disconnect (some h) ∈ (stop b s).2 ∧
        Effect.pa_stream_unref (some h) ∈ (stop b s).2) ∧
      (stop b s).1.ml = s.ml ∧ (stop b s).1.mla = s.mla ∧ (stop b s).1.ctx = s.ctx ∧
      (stop b s).1.clients = s.clients ∧ (stop b s).1.sinkInputs = s.sinkInputs) ∧
    (inited s = false → stop b s = ({ s with shutdown := true }, [])) := by
  obtain ⟨a1, a2, a3, a4, -, -, -, -, a9, a10, -⟩ := stop_frame b s
  refine ⟨a1, ?_, ?_⟩
  · intro hi
    have hi2 : inited { s with shutdown := true } = true := hi
    have f := stopRecordStream_frame b { s with shutdown := true }
    refine ⟨?_, ?_, a2, a3, a4, a9, a10⟩
    · unfold stop
      simp only [hi2, if_true]
      exact f.2.2.1
    · intro h hs
      unfold stop
      simp only [hi2, if_true]
      unfold stopRecordStream
      simp [hs]
  · intro hi
    have hi2 : inited { s with shutdown := true } = false := hi
    unfold stop
    simp [hi2]

/-- Witness of C3: `stop()` in the recording example state, and in the initial
(not inited) state. -/
theorem C3_stop_witness :
    inited recordingState = true ∧
    (stop desktopBuild recordingState).1.stream = none ∧
    (stop desktopBuild recordingState).1.connectedSinkInput = PA_INVALID_INDEX ∧
    inited initial = false ∧
    stop desktopBuild initial = ({ initial with shutdown := true }, []) :=
  ⟨by decide,
    ((C3_stop desktopBuild recordingState).2.1 (by decide)).1,
    (((C3_stop desktopBuild recordingState).2.1 (by decide)).2.1 4 rfl).1,
    by decide,
    (C3_stop desktopBuild initial).2.2 (by decide)⟩

/-- C4.  The capture format is fixed: the microphone constants are 44100 Hz,
1 channel and 16-bit samples; `sampleSpec` is (S16LE, 44100 Hz, 2 channels)
initially; every operation of `PulseAudioSource` (`init`, `deinit`, `start`,
`stop`, `doPulseIteration`, also when run from the timer, `startRecordStream`,
`stopRecordStream`, `discoverStream`, mute and unmute, every callback and every
sequence of callbacks) leaves `sampleSpec` unchanged; and `startRecordStream`
creates its stream with `sampleSpec`. -/
theorem C4_capture_format_fixed :
    ContentServer.micSampleRate = 44100 ∧ ContentServer.micChannelCount = 1 ∧
    ContentServer.micSampleSize = 16 ∧
    initial.sampleSpec = ⟨pa_sample_format.PA_SAMPLE_S16LE, 44100, 2⟩ ∧
    (∀ env s, (init env s).2.1.sampleSpec = s.sampleSpec) ∧
    (∀ s, (deinit s).1.sampleSpec = s.sampleSpec) ∧
    (∀ env s, (start env s).2.1.sampleSpec = s.sampleSpec) ∧
    (∀ b s, (stop b s).1.sampleSpec = s.sampleSpec) ∧
    (∀ b worker run s, (doPulseIteration b worker run s).1.sampleSpec = s.sampleSpec) ∧
    (∀ b worker run s, (onTimeout b worker run s).1.sampleSpec = s.sampleSpec) ∧
    (∀ b env ctx si s, (startRecordStream b env ctx si s).2.1.sampleSpec = s.sampleSpec) ∧
    (∀ b env ctx si s,
      Effect.pa_stream_new ctx s.sampleSpec env.newStream ∈
        (startRecordStream b env ctx si s).2.2) ∧
    (∀ b s, (stopRecordStream b s).1.sampleSpec = s.sampleSpec) ∧
    (∀ b env s, (discoverStream b env s).1.sampleSpec = s.sampleSpec) ∧
    (∀ b s, (muteConnectedSinkInput b s).1.sampleSpec = s.sampleSpec) ∧
    (∀ b s, (unmuteConnectedSinkInput b s).1.sampleSpec = s.sampleSpec) ∧
    (∀ b cb s, (runCallback b cb s).1.sampleSpec = s.sampleSpec) ∧
    (∀ b cbs s, (runCallbacks b cbs s).1.sampleSpec = s.sampleSpec) := by
  refine ⟨rfl, rfl, rfl, rfl, ?_, ?_, ?_, ?_, ?_, ?_, ?_, ?_, ?_, ?_, ?_, ?_, ?_, ?_⟩
  · exact fun env s => (init_frame env s).2.2.2.2.2.1
  · exact fun s => (deinit_frame s).2.2.2.2.2.2.1
  · exact start_sampleSpec
  · exact fun b s => (stop_frame b s).2.2.2.2.2.1
  · exact doPulseIteration_sampleSpec
  · intro b worker run s
    unfold onTimeout
    rw [doPulseIteration_sampleSpec]
  · exact fun b env ctx si s => (startRecordStream_frame b env ctx si s).1.2.2.2.2.2.1
  · intro b env ctx si s
    have a := (stopRecordStream_frame b s).1.2.2.2.2.2.1
    unfold startRecordStream
    simp only []
    split_ifs <;> simp [a]
  · exact fun b s => (stopRecordStream_frame b s).1.2.2.2.2.2.1
  · exact fun b env s => (discoverStream_frame b env s).1.2.2.2.2.2.1
  · exact fun b s => (muteConnectedSinkInput_frame b s).1.2.2.2.2.2.1
  · exact fun b s => (unmuteConnectedSinkInput_frame b s).1.2.2.2.2.2.1
  · exact fun b cb s => (runCallback_frame b cb s).1.2.2.2.2.2.1
  · exact fun b cbs s => (runCallbacks_frame b cbs s).1.2.2.2.2.2.1

end PulseAudioSource

namespace ContentServer

/-- C6.  A default-constructed `ItemMeta` is invalid: `valid` is false, `type` is
`TypeUnknown` (numeric value 0), `duration`, `bitrate`, `sampleRate`, `channels`
and `size` are 0, and `local` and `seekSupported` are true. -/
theorem C6_fresh_ItemMeta_invalid :
    ItemMeta.fresh.valid = false ∧
    ItemMeta.fresh.type = Type_.TypeUnknown ∧
    ItemMeta.fresh.type.toNat = 0 ∧
    ItemMeta.fresh.duration = 0 ∧
    ItemMeta.fresh.bitrate = 0 ∧
    ItemMeta.fresh.sampleRate = 0 ∧
    ItemMeta.fresh.channels = 0 ∧
    ItemMeta.fresh.size = 0 ∧
    ItemMeta.fresh.local_ = true ∧
    ItemMeta.fresh.seekSupported = true :=
  ⟨rfl, rfl, rfl, rfl, rfl, rfl, rfl, rfl, rfl, rfl⟩

/-- C7.  The HTTP probe limits: `maxRedirections` is 5 and `httpTimeout` is
10000 milliseconds, that is 10 seconds of 1000 milliseconds. -/
theorem C7_http_probe_limits :
    maxRedirections = 5 ∧ httpTimeout = 10000 ∧
    httpTimeout = 10 * 1000 := by
  refine ⟨rfl, rfl, ?_⟩
  unfold httpTimeout
  norm_num

end ContentServer

namespace PulseAudioSource

/-- C8 (the code at the failing input).  `timerDelta` is 40 and divisible by 4,
and one timer interval of 16-bit audio at 44100 Hz on 2 channels is
40 * 2 * 44100 * 2 / 1000 = 7056 bytes; but `init()` computes
`int(double(timerDelta)/1000)` first, which is 0, so `nullDataSize` is 0 after
`init()` for every sample spec, and a `doPulseIteration()` without a connected
stream dispatches a silence buffer of 0 bytes. -/
theorem C8_nullDataSize_is_zero :
    timerDelta = 40 ∧ timerDelta % 4 = 0 ∧
    timerDelta * 2 * 44100 * 2 / 1000 = 7056 ∧
    Int.tdiv timerDelta 1000 = 0 ∧
    (∀ spec, nullDataSizeOf spec = 0) ∧
    (∀ env, (init env initial).2.1.nullDataSize = 0) ∧
    (init goodInit initial).2.1.nullDataSize ≠ 7056 ∧
    (doPulseIteration desktopBuild busyWorker quietRun (init goodInit initial).2.1).2 =
      [Effect.dispatchPulseData none 0, Effect.iterationTimerStart] := by
  have h0 : Int.tdiv timerDelta 1000 = 0 := by decide
  have hz : ∀ spec, nullDataSizeOf spec = 0 := by
    intro spec
    unfold nullDataSizeOf
    rw [h0]
    simp [wrapInt32, toInt32]
  refine ⟨by decide, by decide, by decide, h0, hz, ?_, ?_, by decide⟩
  · intro env
    rw [(init_frame env initial).2.2.2.2.1]
    exact hz _
  · rw [(init_frame goodInit initial).2.2.2.2.1, hz]
    decide

/-- C9.  `startRecordStream(ctx, si)` returns true exactly when
`pa_stream_set_monitor_stream` and `pa_stream_connect_record` both succeed
(return a non-negative code).  When it returns true, `connectedSinkInput` is
`si` and `stream` is the stream just created; when it returns false, `stream`
is null and `connectedSinkInput` is `PA_INVALID_INDEX`.  In both cases a stream
connected at entry is disconnected and released before the new one is created,
at no moment more than one record stream is alive, and the stream alive after
the call is the one in `stream`. -/
theorem C9_startRecordStream (b : Build) (env : StreamEnv) (ctx : Option Handle) (si : Nat)
    (s : PulseAudioSource) :
    ((startRecordStream b env ctx si s).1 = true ↔
      (0 ≤ env.monitorRet ∧ 0 ≤ env.connectRet)) ∧
    ((startRecordStream b env ctx si s).1 = true →
      (startRecordStream b env ctx si s).2.1.connectedSinkInput = si ∧
      (startRecordStream b env ctx si s).2.1.stream = env.newStream) ∧
    ((startRecordStream b env ctx si s).1 = false →
      (startRecordStream b env ctx si s).2.1.stream = none ∧
      (startRecordStream b env ctx si s).2.1.connectedSinkInput = PA_INVALID_INDEX) ∧
    (∀ h, s.stream = some h → ∃ pre post,
      (startRecordStream b env ctx si s).2.2 =
        pre ++ [Effect.pa_stream_disconnect (some h), Effect.pa_stream_unref (some h),
                Effect.pa_stream_new ctx s.sampleSpec env.newStream] ++ post ∧
      NoStreamCall pre) ∧
    (∀ l ∈ liveStreamsTrace s.stream.toList (startRecordStream b env ctx si s).2.2,
      l.length ≤ 1) ∧
    liveStreamsAfter s.stream.toList (startRecordStream b env ctx si s).2.2 =
      (startRecordStream b env ctx si s).2.1.stream.toList := by
  have e0 := stopRecordStream_effects b s
  have n0 := unmuteConnectedSinkInput_noStreamCall b s
  have f0 := (stopRecordStream_frame b s).1.2.2.2.2.2.1
  unfold startRecordStream
  generalize stopRecordStream b s = r0 at e0 f0 ⊢
  generalize (unmuteConnectedSinkInput b s).2 = pre0 at e0 n0
  have m := muteConnectedSinkInput_frame b
    { r0.1 with stream := env.newStream, connectedSinkInput := si }
  have mn := muteConnectedSinkInput_noStreamCall b
    { r0.1 with stream := env.newStream, connectedSinkInput := si }
  simp only [] at m mn ⊢
  generalize muteConnectedSinkInput b _ = r2 at m mn ⊢
  have un := unmuteConnectedSinkInput_noStreamCall b r2.1
  generalize unmuteConnectedSinkInput b r2.1 = r3 at un ⊢
  obtain ⟨-, -, m3, m4, -, -⟩ := m
  have rel := liveStreams_release s.stream pre0 n0
  rw [← e0] at rel
  obtain ⟨rel1, rel2⟩ := rel
  have hcb : NoStreamCall [Effect.pa_stream_set_read_callback env.newStream] := by
    simp [NoStreamCall, isStreamCall]
  have hdis : ∀ h : Handle, s.stream = some h → ∀ rest : List Effect,
      r0.2 ++ [Effect.pa_stream_new ctx r0.1.sampleSpec env.newStream,
        Effect.pa_stream_set_read_callback env.newStream] ++ rest =
      pre0 ++ [Effect.pa_stream_disconnect (some h), Effect.pa_stream_unref (some h),
        Effect.pa_stream_new ctx s.sampleSpec env.newStream] ++
        (Effect.pa_stream_set_read_callback env.newStream :: rest) := by
    intro h hs rest
    rw [e0, hs, f0]
    simp
  by_cases hm : env.monitorRet < 0
  · have key := liveStreams_create env.newStream ctx r0.1.sampleSpec
      ([Effect.pa_stream_set_read_callback env.newStream] ++ r2.2 ++
        [Effect.pa_stream_set_monitor_stream env.newStream si,
         Effect.pa_stream_disconnect env.newStream])
      r3.2 ((hcb.concat mn).concat (by simp [NoStreamCall, isStreamCall])) un true
    obtain ⟨k1, k2⟩ := key
    simp only [hm, if_true]
    refine ⟨by simp; omega, by simp, by simp, ?_, ?_, ?_⟩
    · intro h hs
      refine ⟨pre0, Effect.pa_stream_set_read_callback env.newStream ::
        (r2.2 ++ [Effect.pa_stream_set_monitor_stream env.newStream si,
        Effect.pa_stream_disconnect env.newStream, Effect.pa_stream_unref env.newStream] ++
        r3.2), ?_, n0⟩
      rw [← hdis h hs]
      simp [List.append_assoc]
    · intro l hl
      have hE : r0.2 ++ [Effect.pa_stream_new ctx r0.1.sampleSpec env.newStream,
            Effect.pa_stream_set_read_callback env.newStream] ++ r2.2 ++
          [Effect.pa_stream_set_monitor_stream env.newStream si,
            Effect.pa_stream_disconnect env.newStream, Effect.pa_stream_unref env.newStream] ++
          r3.2 =
          r0.2 ++ ([Effect.pa_stream_new ctx r0.1.sampleSpec env.newStream] ++
            ([Effect.pa_stream_set_read_callback env.newStream] ++ r2.2 ++
              [Effect.pa_stream_set_monitor_stream env.newStream si,
               Effect.pa_stream_disconnect env.newStream]) ++
            (if true = true then [Effect.pa_stream_unref env.newStream] else []) ++ r3.2) := by
        simp [List.append_assoc]
      rw [hE, liveStreamsTrace_append, rel1] at hl
      rcases hl with hl | hl
      · exact rel2 l hl
      · exact k2 l hl
    · have hE : r0.2 ++ [Effect.pa_stream_new ctx r0.1.sampleSpec env.newStream,
            Effect.pa_stream_set_read_callback env.newStream] ++ r2.2 ++
          [Effect.pa_stream_set_monitor_stream env.newStream si,
            Effect.pa_stream_disconnect env.newStream, Effect.pa_stream_unref env.newStream] ++
          r3.2 =
          r0.2 ++ ([Effect.pa_stream_new ctx r0.1.sampleSpec env.newStream] ++
            ([Effect.pa_stream_set_read_callback env.newStream] ++ r2.2 ++
              [Effect.pa_stream_set_monitor_stream env.newStream si,
               Effect.pa_stream_disconnect env.newStream]) ++
            (if true = true then [Effect.pa_stream_unref env.newStream] else []) ++ r3.2) := by
        simp [List.append_assoc]
      rw [hE, liveStreamsAfter_append, rel1, k1]
      simp
  · by_cases hc : env.connectRet < 0
    · have key := liveStreams_create env.newStream ctx r0.1.sampleSpec
        ([Effect.pa_stream_set_read_callback env.newStream] ++ r2.2 ++
          [Effect.pa_stream_set_monitor_stream env.newStream si,
           Effect.pa_stream_connect_record env.newStream,
           Effect.pa_stream_disconnect env.newStream])
        r3.2 ((hcb.concat mn).concat (by simp [NoStreamCall, isStreamCall])) un true
      obtain ⟨k1, k2⟩ := key
      simp only [hm, hc, if_true, if_false]
      have hE : r0.2 ++ [Effect.pa_stream_new ctx r0.1.sampleSpec env.newStream,
            Effect.pa_stream_set_read_callback env.newStream] ++ r2.2 ++
          [Effect.pa_stream_set_monitor_stream env.newStream si,
            Effect.pa_stream_connect_record env.newStream,
            Effect.pa_stream_disconnect env.newStream, Effect.pa_stream_unref env.newStream] ++
          r3.2 =
          r0.2 ++ ([Effect.pa_stream_new ctx r0.1.sampleSpec env.newStream] ++
            ([Effect.pa_stream_set_read_callback env.newStream] ++ r2.2 ++
              [Effect.pa_stream_set_monitor_stream env.newStream si,
               Effect.pa_stream_connect_record env.newStream,
               Effect.pa_stream_disconnect env.newStream]) ++
            (if true = true then [Effect.pa_stream_unref env.newStream] else []) ++ r3.2) := by
        simp [List.append_assoc]
      refine ⟨by simp; omega, by simp, by simp, ?_, ?_, ?_⟩
      · intro h hs
        refine ⟨pre0, Effect.pa_stream_set_read_callback env.newStream ::
          (r2.2 ++ [Effect.pa_stream_set_monitor_stream env.newStream si,
          Effect.pa_stream_connect_record env.newStream,
          Effect.pa_stream_disconnect env.newStream, Effect.pa_stream_unref env.newStream] ++
          r3.2), ?_, n0⟩
        rw [← hdis h hs]
        simp [List.append_assoc]
      · intro l hl
        rw [hE, liveStreamsTrace_append, rel1] at hl
        rcases hl with hl | hl
        · exact rel2 l hl
        · exact k2 l hl
      · rw [hE, liveStreamsAfter_append, rel1, k1]
        simp
    · have key := liveStreams_create env.newStream ctx r0.1.sampleSpec
        ([Effect.pa_stream_set_read_callback env.newStream] ++ r2.2 ++
          [Effect.pa_stream_set_monitor_stream env.newStream si,
           Effect.pa_stream_connect_record env.newStream])
        [] ((hcb.concat mn).concat (by simp [NoStreamCall, isStreamCall]))
        (by simp [NoStreamCall]) false
      obtain ⟨k1, k2⟩ := key
      simp only [hm, hc, if_false]
      have hE : r0.2 ++ [Effect.pa_stream_new ctx r0.1.sampleSpec env.newStream,
            Effect.pa_stream_set_read_callback env.newStream] ++ r2.2 ++
          [Effect.pa_stream_set_monitor_stream env.newStream si,
            Effect.pa_stream_connect_record env.newStream] =
          r0.2 ++ ([Effect.pa_stream_new ctx r0.1.sampleSpec env.newStream] ++
            ([Effect.pa_stream_set_read_callback env.newStream] ++ r2.2 ++
              [Effect.pa_stream_set_monitor_stream env.newStream si,
               Effect.pa_stream_connect_record env.newStream]) ++
            (if false = true then [Effect.pa_stream_unref env.newStream] else []) ++ []) := by
        simp [List.append_assoc]
      refine ⟨by simp; omega, ?_, by simp, ?_, ?_, ?_⟩
      · intro _
        exact ⟨m4, m3⟩
      · intro h hs
        refine ⟨pre0, Effect.pa_stream_set_read_callback env.newStream ::
          (r2.2 ++ [Effect.pa_stream_set_monitor_stream env.newStream si,
          Effect.pa_stream_connect_record env.newStream]), ?_, n0⟩
        rw [← hdis h hs]
        simp [List.append_assoc]
      · intro l hl
        rw [hE, liveStreamsTrace_append, rel1] at hl
        rcases hl with hl | hl
        · exact rel2 l hl
        · exact k2 l hl
      · rw [hE, liveStreamsAfter_append, rel1, k1, m3]
        simp

/-- Witness of C9: from the recording example state (stream 4 connected), a
successful and a failing `startRecordStream` for sink input 8. -/
theorem C9_startRecordStream_witness :
    (startRecordStream desktopBuild ⟨some 9, 0, 0⟩ (some 3) 8 recordingState).1 = true ∧
    (startRecordStream desktopBuild ⟨some 9, 0, 0⟩ (some 3) 8 recordingState).2.1.stream =
      some 9 ∧
    (startRecordStream desktopBuild ⟨some 9, 0, -1⟩ (some 3) 8 recordingState).1 = false ∧
    (startRecordStream desktopBuild ⟨some 9, 0, -1⟩ (some 3) 8
      recordingState).2.1.connectedSinkInput = PA_INVALID_INDEX ∧
    recordingState.stream = some 4 ∧
    (∃ pre post,
      (startRecordStream desktopBuild ⟨some 9, 0, 0⟩ (some 3) 8 recordingState).2.2 =
        pre ++ [Effect.pa_stream_disconnect (some 4), Effect.pa_stream_unref (some 4),
                Effect.pa_stream_new (some 3) recordingState.sampleSpec (some 9)] ++ post ∧
      NoStreamCall pre) ∧
    [9] ∈ liveStreamsTrace recordingState.stream.toList
      (startRecordStream desktopBuild ⟨some 9, 0, 0⟩ (some 3) 8 recordingState).2.2 ∧
    [9].length ≤ 1 :=
  ⟨by decide,
    ((C9_startRecordStream desktopBuild ⟨some 9, 0, 0⟩ (some 3) 8 recordingState).2.1
      (by decide)).2,
    by decide,
    ((C9_startRecordStream desktopBuild ⟨some 9, 0, -1⟩ (some 3) 8 recordingState).2.2.1
      (by decide)).2,
    rfl,
    (C9_startRecordStream desktopBuild ⟨some 9, 0, 0⟩ (some 3) 8 recordingState).2.2.2.1 4 rfl,
    by decide,
    (C9_startRecordStream desktopBuild ⟨some 9, 0, 0⟩ (some 3) 8 recordingState).2.2.2.2.1 [9]
      (by decide)⟩

/-- C10.  In `doPulseIteration()` with at least one capture subscriber, `shutdown`
is not changed by the main loop, and, `stream` being read after the loop:
a silence buffer (null data, `nullDataSize` bytes) is dispatched exactly
once if `ret == 0`, `shutdown` is false and `stream` is null, and not at all
otherwise; `iterationTimer.start()` is called exactly once (leaving the timer
active) if `ret == 0` and `shutdown` is false, and not at all otherwise; in that
other case `deinit()` runs and the source ends not inited. -/
theorem C10_doPulseIteration_with_subscribers (b : Build) (worker : Worker)
    (run : MainloopRun) (s : PulseAudioSource)
    (hsub : ¬ (worker.screenCaptureItems = [] ∧ worker.audioCaptureItems = [])) :
    (runCallbacks b run.callbacks s).1.shutdown = s.shutdown ∧
    (runCallbacks b run.callbacks s).1.nullDataSize = s.nullDataSize ∧
    (silenceCount (doPulseIteration b worker run s).2 = 1 ↔
      (run.ret = 0 ∧ s.shutdown = false ∧ (runCallbacks b run.callbacks s).1.stream = none)) ∧
    (silenceCount (doPulseIteration b worker run s).2 = 0 ↔
      ¬ (run.ret = 0 ∧ s.shutdown = false ∧ (runCallbacks b run.callbacks s).1.stream = none)) ∧
    ((run.ret = 0 ∧ s.shutdown = false ∧ (runCallbacks b run.callbacks s).1.stream = none) →
      Effect.dispatchPulseData none s.nullDataSize ∈ (doPulseIteration b worker run s).2) ∧
    (timerStartCount (doPulseIteration b worker run s).2 = 1 ↔
      (run.ret = 0 ∧ s.shutdown = false)) ∧
    (timerStartCount (doPulseIteration b worker run s).2 = 0 ↔
      ¬ (run.ret = 0 ∧ s.shutdown = false)) ∧
    ((run.ret = 0 ∧ s.shutdown = false) →
      (doPulseIteration b worker run s).1.iterationTimerActive = true ∧
      inited (doPulseIteration b worker run s).1 = inited s) ∧
    (¬ (run.ret = 0 ∧ s.shutdown = false) →
      (doPulseIteration b worker run s).1 = (deinit (runCallbacks b run.callbacks s).1).1 ∧
      (doPulseIteration b worker run s).2 =
        (runCallbacks b run.callbacks s).2 ++ (deinit (runCallbacks b run.callbacks s).1).2 ∧
      inited (doPulseIteration b worker run s).1 = false ∧
      (doPulseIteration b worker run s).1.iterationTimerActive = s.iterationTimerActive) := by
  have c := runCallbacks_frame b run.callbacks s
  have d := deinit_frame (runCallbacks b run.callbacks s).1
  rw [doPulseIteration_with_subscribers b worker run s hsub]
  generalize runCallbacks b run.callbacks s = r2 at c d ⊢
  generalize deinit r2.1 = r3 at d ⊢
  obtain ⟨⟨c1, c2, c3, c4, c5, c6, c7, c8, -⟩, c9⟩ := c
  obtain ⟨d1, d2, d3, -, -, d5, -, -, d8, -, -, -, -, d9⟩ := d
  have q2s := c9.silenceCount_eq
  have q2t := c9.timerStartCount_eq
  have q3s := d9.silenceCount_eq
  have q3t := d9.timerStartCount_eq
  refine ⟨c5, c7, ?_⟩
  by_cases hr : run.ret = 0
  · cases hsd : s.shutdown
    · have h2 : r2.1.shutdown = false := by rw [c5, hsd]
      cases hst : r2.1.stream
      · simp [hr, h2, hst, silenceCount_append, timerStartCount_append, q2s, q2t, c7,
          silenceCount_silence_timerStart, timerStartCount_silence_timerStart,
          silenceCount_nil, timerStartCount_nil, silenceCount_silence, timerStartCount_silence,
          silenceCount_timerStart, timerStartCount_timerStart, inited, c1, c2, c3]
      · simp [hr, h2, hst, silenceCount_append, timerStartCount_append, q2s, q2t,
          silenceCount_nil, timerStartCount_nil, silenceCount_silence, timerStartCount_silence,
          silenceCount_timerStart, timerStartCount_timerStart, inited, c1, c2, c3]
    · have h2 : r2.1.shutdown = true := by rw [c5, hsd]
      simp [hr, h2, silenceCount_append, timerStartCount_append, q2s, q2t, q3s, q3t,
        inited, d1, d8, c8]
  · simp [hr, silenceCount_append, timerStartCount_append, q2s, q2t, q3s, q3t,
      inited, d1, d8, c8]

/-- Witness of C10: with one audio-capture subscriber and a quiet main loop, the
source just inited (no stream) gets one silence buffer and a re-armed timer;
after `stop()` the same call runs `deinit()` and the source is not inited. -/
theorem C10_doPulseIteration_with_subscribers_witness :
    ¬ (busyWorker.screenCaptureItems = [] ∧ busyWorker.audioCaptureItems = []) ∧
    silenceCount (doPulseIteration desktopBuild busyWorker quietRun
      (init goodInit initial).2.1).2 = 1 ∧
    Effect.dispatchPulseData none (init goodInit initial).2.1.nullDataSize ∈
      (doPulseIteration desktopBuild busyWorker quietRun (init goodInit initial).2.1).2 ∧
    timerStartCount (doPulseIteration desktopBuild busyWorker quietRun
      (init goodInit initial).2.1).2 = 1 ∧
    (doPulseIteration desktopBuild busyWorker quietRun
      (init goodInit initial).2.1).1.iterationTimerActive = true ∧
    (stop desktopBuild recordingState).1.shutdown = true ∧
    inited (doPulseIteration desktopBuild busyWorker quietRun
      (stop desktopBuild recordingState).1).1 = false :=
  ⟨by decide,
    (C10_doPulseIteration_with_subscribers desktopBuild busyWorker quietRun
      (init goodInit initial).2.1 (by decide)).2.2.1.mpr (by decide),
    (C10_doPulseIteration_with_subscribers desktopBuild busyWorker quietRun
      (init goodInit initial).2.1 (by decide)).2.2.2.2.1 (by decide),
    (C10_doPulseIteration_with_subscribers desktopBuild busyWorker quietRun
      (init goodInit initial).2.1 (by decide)).2.2.2.2.2.1.mpr (by decide),
    ((C10_doPulseIteration_with_subscribers desktopBuild busyWorker quietRun
      (init goodInit initial).2.1 (by decide)).2.2.2.2.2.2.2.1 (by decide)).1,
    by decide,
    ((C10_doPulseIteration_with_subscribers desktopBuild busyWorker quietRun
      (stop desktopBuild recordingState).1 (by decide)).2.2.2.2.2.2.2.2 (by decide)).2.2.1⟩

/-- C11.  `streamRequestCallback` changes no field of `PulseAudioSource`, on any
path.  It calls `dispatchPulseData` exactly once, with the peeked data and the
peeked byte count as `static_cast<int>` passes it (the count itself below 2^31),
when the requested `nbytes` is positive, `pa_stream_peek` succeeds, the peeked
data pointer is non-null, the peeked byte count is positive and
`PulseAudioSource::stream` is non-null; in every other case, in particular on
every early return, it dispatches nothing. -/
theorem C11_streamRequestCallback (stream : Handle) (nbytes : Nat) (peek : PeekResult)
    (s : PulseAudioSource) :
    (streamRequestCallback stream nbytes peek s).1 = s ∧
    ((0 < nbytes ∧ 0 ≤ peek.ret ∧ peek.data ≠ none ∧ 0 < peek.nbytes ∧ s.stream ≠ none) →
      dispatchCalls (streamRequestCallback stream nbytes peek s).2 =
        [(peek.data, toInt32 peek.nbytes)] ∧
      (peek.nbytes < 2147483648 → toInt32 peek.nbytes = (peek.nbytes : Int))) ∧
    (¬ (0 < nbytes ∧ 0 ≤ peek.ret ∧ peek.data ≠ none ∧ 0 < peek.nbytes ∧ s.stream ≠ none) →
      dispatchCalls (streamRequestCallback stream nbytes peek s).2 = []) ∧
    (∀ b, runCallback b (Callback.streamRequest stream nbytes peek) s =
      streamRequestCallback stream nbytes peek s) := by
  refine ⟨?_, ?_, ?_, fun _ => rfl⟩
  · unfold streamRequestCallback
    split_ifs <;> rfl
  · rintro ⟨h1, h2, h3, h4, h5⟩
    refine ⟨?_, ?_⟩
    · have h3b : peek.data.isNone = false := by
        cases hd : peek.data with
        | none => exact absurd hd h3
        | some d => rfl
      have h5b : s.stream.isSome = true := by
        cases hd : s.stream with
        | none => exact absurd hd h5
        | some d => rfl
      unfold streamRequestCallback
      simp [Nat.not_le.mpr h1, Int.not_lt.mpr h2, h3b, Nat.not_le.mpr h4, h5b, dispatchCalls]
    · intro hlt
      unfold toInt32
      have hm : peek.nbytes % 4294967296 = peek.nbytes := Nat.mod_eq_of_lt (by omega)
      simp [hm, hlt]
  · intro hn
    unfold streamRequestCallback
    split_ifs with a1 a2 a3 a4 a5
    · rfl
    · rfl
    · rfl
    · rfl
    · exfalso
      apply hn
      refine ⟨by omega, by omega, ?_, by omega, ?_⟩
      · intro hd
        simp [hd] at a3
      · intro hd
        simp [hd] at a5
    · rfl

/-- Witness of C11: in the recording example state a peek of 4 bytes is
dispatched once; in the idle example state (no stream) nothing is dispatched. -/
theorem C11_streamRequestCallback_witness :
    (0 < 4 ∧ (0 : Int) ≤ (PeekResult.mk 0 (some [1, 2, 3, 4]) 4).ret ∧
      (PeekResult.mk 0 (some [1, 2, 3, 4]) 4).data ≠ none ∧
      0 < (PeekResult.mk 0 (some [1, 2, 3, 4]) 4).nbytes ∧ recordingState.stream ≠ none) ∧
    dispatchCalls (streamRequestCallback 4 4 ⟨0, some [1, 2, 3, 4], 4⟩ recordingState).2 =
      [(some [1, 2, 3, 4], 4)] ∧
    idleState.stream = none ∧
    dispatchCalls (streamRequestCallback 4 4 ⟨0, some [1, 2, 3, 4], 4⟩ idleState).2 = [] :=
  ⟨by decide,
    ((C11_streamRequestCallback 4 4 ⟨0, some [1, 2, 3, 4], 4⟩ recordingState).2.1
      (by decide)).1,
    rfl,
    (C11_streamRequestCallback 4 4 ⟨0, some [1, 2, 3, 4], 4⟩ idleState).2.2.1 (by decide)⟩

end PulseAudioSource

namespace ContentServer

theorem DLNA_ORG_FLAGS.bits_eq (f : DLNA_ORG_FLAGS) :
    f = DLNA_ORG_FLAGS.DLNA_ORG_FLAG_NONE ∧ f.bits = 0 ∨
    ∃ k, 20 ≤ k ∧ k ≤ 31 ∧ f.bits = 2 ^ k := by
  cases f
  · exact Or.inl ⟨rfl, by decide⟩
  · exact Or.inr ⟨31, by decide, by decide, by decide⟩
  · exact Or.inr ⟨30, by decide, by decide, by decide⟩
  · exact Or.inr ⟨29, by decide, by decide, by decide⟩
  · exact Or.inr ⟨28, by decide, by decide, by decide⟩
  · exact Or.inr ⟨27, by decide, by decide, by decide⟩
  · exact Or.inr ⟨26, by decide, by decide, by decide⟩
  · exact Or.inr ⟨25, by decide, by decide, by decide⟩
  · exact Or.inr ⟨24, by decide, by decide, by decide⟩
  · exact Or.inr ⟨23, by decide, by decide, by decide⟩
  · exact Or.inr ⟨22, by decide, by decide, by decide⟩
  · exact Or.inr ⟨21, by decide, by decide, by decide⟩
  · exact Or.inr ⟨20, by decide, by decide, by decide⟩

theorem DLNA_ORG_FLAGS.bits_injective (f g : DLNA_ORG_FLAGS) (h : f.bits = g.bits) : f = g := by
  cases f <;> cases g <;> first | rfl | (exfalso; revert h; decide)

theorem orFlags_lt (fs : List DLNA_ORG_FLAGS) : orFlags fs < 2 ^ 32 := by
  induction fs with
  | nil => simp [orFlags]
  | cons f fs ih =>
    have hf : f.bits < 2 ^ 32 := by
      rcases DLNA_ORG_FLAGS.bits_eq f with ⟨-, h⟩ | ⟨k, h1, h2, h⟩
      · rw [h]
        exact Nat.two_pow_pos 32
      · rw [h]
        exact Nat.pow_lt_pow_right (by decide) (by omega)
    exact Nat.or_lt_two_pow hf ih

theorem orFlags_testBit (fs : List DLNA_ORG_FLAGS) (i : Nat) (hi : i < 20) :
    (orFlags fs).testBit i = false := by
  induction fs with
  | nil => simp [orFlags]
  | cons f fs ih =>
    have hf : f.bits.testBit i = false := by
      rcases DLNA_ORG_FLAGS.bits_eq f with ⟨-, h⟩ | ⟨k, h1, h2, h⟩
      · rw [h]
        exact Nat.zero_testBit i
      · rw [h]
        exact Nat.testBit_two_pow_of_ne (by omega)
    simp [orFlags, hf, ih]

theorem hexDigits8_length (v : Nat) (hv : v < 2 ^ 32) : (hexDigits8 v).length = 8 := by
  have hlen : (Nat.digits 16 v).length ≤ 8 := by
    by_cases h0 : v = 0
    · subst h0
      simp
    · have h1 := Nat.base_pow_length_digits_le 16 v (by decide) h0
      by_contra hcon
      have h9 : 9 ≤ (Nat.digits 16 v).length := by omega
      have h2 : 16 ^ 9 ≤ 16 ^ (Nat.digits 16 v).length :=
        Nat.pow_le_pow_right (by decide) h9
      have h3 : (16 : Nat) ^ 9 = 16 * 2 ^ 32 := by norm_num
      omega
  simp only [hexDigits8, List.length_append, List.length_replicate, List.length_reverse]
  omega

theorem hexDigits8_value (v : Nat) : Nat.ofDigits 16 (hexDigits8 v).reverse = v := by
  simp only [hexDigits8, List.reverse_append, List.reverse_reverse, List.reverse_replicate,
    Nat.ofDigits_append, Nat.ofDigits_digits]
  have hz : ∀ n : Nat, Nat.ofDigits 16 (List.replicate n 0) = 0 := by
    intro n
    induction n with
    | zero => rfl
    | succ n ih => simp [List.replicate_succ, Nat.ofDigits_cons, ih]
  rw [hz]
  simp

theorem hexDigits8_lt (v : Nat) (d : Nat) (hd : d ∈ hexDigits8 v) : d < 16 := by
  simp only [hexDigits8, List.mem_append, List.mem_replicate, List.mem_reverse] at hd
  rcases hd with ⟨-, h⟩ | h
  · omega
  · exact Nat.digits_lt_base (by decide) h

theorem isHexDigit_hexDigit (d : Nat) (hd : d < 16) : isHexDigit (hexDigit d) = true := by
  have h : ∀ e : Fin 16, isHexDigit (hexDigit e.val) = true := by decide
  exact h ⟨d, hd⟩

/-- C12.  The twelve `DLNA_ORG_FLAGS` members other than `NONE` are, taken
modulo 2^32, single bits at positions 20 to 31 (`SENDER_PACED`, declared as
`1 << 31`, is negative as an `int` and bit 31 modulo 2^32), and distinct
members have distinct values.  Hence every OR-combination of members, so also
the ones `dlnaOrgFlagsForFile` and `dlnaOrgFlagsForStreaming` use, is below
2^32 and has no bit set below position 20; rendered as the spec has it, it is
exactly 8 hexadecimal digits that denote the value, followed by 24 zero digits. -/
theorem C12_org_flags_32_bits :
    (∀ f : DLNA_ORG_FLAGS, f ≠ DLNA_ORG_FLAGS.DLNA_ORG_FLAG_NONE →
      ∃ k, 20 ≤ k ∧ k ≤ 31 ∧ f.bits = 2 ^ k) ∧
    (∀ f g : DLNA_ORG_FLAGS, f.bits = g.bits → f = g) ∧
    DLNA_ORG_FLAGS.DLNA_ORG_FLAG_NONE.bits = 0 ∧
    DLNA_ORG_FLAGS.DLNA_ORG_FLAG_SENDER_PACED.toInt = -2147483648 ∧
    DLNA_ORG_FLAGS.DLNA_ORG_FLAG_SENDER_PACED.bits = 2 ^ 31 ∧
    (∀ fs : List DLNA_ORG_FLAGS,
      orFlags fs < 2 ^ 32 ∧
      (∀ i, i < 20 → (orFlags fs).testBit i = false) ∧
      orFlags fs % 2 ^ 20 = 0 ∧
      (hexDigits8 (orFlags fs)).length = 8 ∧
      Nat.ofDigits 16 (hexDigits8 (orFlags fs)).reverse = orFlags fs ∧
      (renderOrgFlags (orFlags fs)).length = 32 ∧
      (∀ c ∈ (renderOrgFlags (orFlags fs)).take 8, isHexDigit c = true) ∧
      (renderOrgFlags (orFlags fs)).drop 8 = List.replicate 24 '0') := by
  refine ⟨?_, DLNA_ORG_FLAGS.bits_injective, by decide, by decide, by decide, ?_⟩
  · intro f hf
    rcases DLNA_ORG_FLAGS.bits_eq f with ⟨h, -⟩ | h
    · exact absurd h hf
    · exact h
  · intro fs
    have hlt := orFlags_lt fs
    have hlen := hexDigits8_length (orFlags fs) hlt
    have hmap : ((hexDigits8 (orFlags fs)).map hexDigit).length = 8 := by
      rw [List.length_map, hlen]
    refine ⟨hlt, orFlags_testBit fs, ?_, hlen, hexDigits8_value _, ?_, ?_, ?_⟩
    · apply Nat.eq_of_testBit_eq
      intro i
      rw [Nat.testBit_mod_two_pow, Nat.zero_testBit]
      by_cases hi : i < 20
      · simp [hi, orFlags_testBit fs i hi]
      · simp [hi]
    · simp [renderOrgFlags, hlen]
    · intro c hc
      rw [renderOrgFlags, List.take_append_of_le_length (by omega), List.take_of_length_le
        (by omega)] at hc
      obtain ⟨d, hd, rfl⟩ := List.mem_map.mp hc
      exact isHexDigit_hexDigit d (hexDigits8_lt _ d hd)
    · rw [renderOrgFlags, List.drop_append_of_le_length (by omega), List.drop_of_length_le
        (by omega)]
      rfl

/-- Witness of C12: the combination of byte-based seek, background transfer and
DLNA 1.5 is 0x20500000 and is rendered as "20500000" and 24 zeros. -/
theorem C12_org_flags_32_bits_witness :
    DLNA_ORG_FLAGS.DLNA_ORG_FLAG_BYTE_BASED_SEEK ≠ DLNA_ORG_FLAGS.DLNA_ORG_FLAG_NONE ∧
    (∃ k, 20 ≤ k ∧ k ≤ 31 ∧ DLNA_ORG_FLAGS.DLNA_ORG_FLAG_BYTE_BASED_SEEK.bits = 2 ^ k) ∧
    orFlags [DLNA_ORG_FLAGS.DLNA_ORG_FLAG_BYTE_BASED_SEEK,
      DLNA_ORG_FLAGS.DLNA_ORG_FLAG_BACKGROUND_TRANSFER_MODE,
      DLNA_ORG_FLAGS.DLNA_ORG_FLAG_DLNA_V15] = 542113792 ∧
    (3 < 20 ∧ (orFlags [DLNA_ORG_FLAGS.DLNA_ORG_FLAG_BYTE_BASED_SEEK,
      DLNA_ORG_FLAGS.DLNA_ORG_FLAG_BACKGROUND_TRANSFER_MODE,
      DLNA_ORG_FLAGS.DLNA_ORG_FLAG_DLNA_V15]).testBit 3 = false) ∧
    (renderOrgFlags (orFlags [DLNA_ORG_FLAGS.DLNA_ORG_FLAG_BYTE_BASED_SEEK,
      DLNA_ORG_FLAGS.DLNA_ORG_FLAG_BACKGROUND_TRANSFER_MODE,
      DLNA_ORG_FLAGS.DLNA_ORG_FLAG_DLNA_V15])).length = 32 :=
  ⟨by decide,
    C12_org_flags_32_bits.1 DLNA_ORG_FLAGS.DLNA_ORG_FLAG_BYTE_BASED_SEEK (by decide),
    by decide,
    ⟨by decide, (C12_org_flags_32_bits.2.2.2.2.2 _).2.1 3 (by decide)⟩,
    (C12_org_flags_32_bits.2.2.2.2.2 _).2.2.2.2.2.1⟩

end ContentServer

namespace PulseAudioSource

/-- C13.  Lifecycle invariant.  Take any sequence of `init`, `deinit`, `start`,
`stop` and `doPulseIteration` from the initial state in which `init` is called
only when the source is not inited and `pa_mainloop_new` and
`pa_mainloop_get_api` return non-null handles whenever `init()` runs.  In the
state it reaches, `ml`, `mla` and `ctx` are all null or all non-null, so
`inited()` holds exactly when `ctx` is non-null; `deinit()` leaves all three
null; and `deinit()` run twice gives the state of `deinit()` run once (this last
for every state). -/
theorem C13_lifecycle_invariant (b : Build) (ops : List Op)
    (hadm : admissible b ops initial = true) :
    handlesConsistent (runOps b ops initial) = true ∧
    (inited (runOps b ops initial) = true ↔ (runOps b ops initial).ctx ≠ none) ∧
    (deinit (runOps b ops initial)).1.ml = none ∧
    (deinit (runOps b ops initial)).1.mla = none ∧
    (deinit (runOps b ops initial)).1.ctx = none ∧
    (deinit (deinit (runOps b ops initial)).1).1 = (deinit (runOps b ops initial)).1 ∧
    (∀ t : PulseAudioSource, (deinit (deinit t).1).1 = (deinit t).1) := by
  have hc := runOps_handlesConsistent b ops initial (by decide) hadm
  generalize runOps b ops initial = s at hc ⊢
  obtain ⟨d1, d2, -, d4, -⟩ := deinit_frame s
  have hml : s.ml = none → s.mla = none := by
    intro h
    cases hm : s.mla <;> simp_all [handlesConsistent]
  refine ⟨hc, ?_, d2, d4 hml, d1, deinit_idempotent s, deinit_idempotent⟩
  cases hm : s.ml <;> cases hp : s.mla <;> cases hx : s.ctx <;>
    simp_all [handlesConsistent, inited]

/-- Witness of C13: the example sequence is admissible, and the state it reaches
(inited again after the second start) has consistent handles. -/
theorem C13_lifecycle_invariant_witness :
    admissible desktopBuild exampleOps initial = true ∧
    handlesConsistent (runOps desktopBuild exampleOps initial) = true ∧
    inited (runOps desktopBuild exampleOps initial) = true ∧
    (deinit (runOps desktopBuild exampleOps initial)).1.mla = none :=
  ⟨by decide, (C13_lifecycle_invariant desktopBuild exampleOps (by decide)).1,
    by decide, (C13_lifecycle_invariant desktopBuild exampleOps (by decide)).2.2.2.1⟩

/-- C14.  When the source is not inited, `discoverStream()` changes nothing and
sends no name.  Take an inited state that keeps the pairing of `stream` and
`connectedSinkInput` (`connectedSinkInput` is `PA_INVALID_INDEX` whenever
`stream` is null), in which no sink input carries `PA_INVALID_INDEX` as its
index, and let `pa_stream_new` return a non-null stream.  After the call,
`clients` and `sinkInputs` are as before, and `connectedSinkInput` is either
`PA_INVALID_INDEX` or the index of a sink input in `sinkInputs` that is not
corked and whose client is in `clients`.  If the recording is connected after
the call (`stream` non-null), it is connected to such a sink input, already
before the call or newly by two successful libpulse calls, and the one name
sent to the worker is the name of that sink input's client; if it is not
connected (`stream` null), `connectedSinkInput` is `PA_INVALID_INDEX` and the
one name sent is the empty string.  If no sink input is un-corked with a known
client, the recording is stopped (`stream` null); if there is one and both
libpulse calls succeed, the recording is connected. -/
theorem C14_discoverStream (b : Build) (env : StreamEnv) (s : PulseAudioSource) :
    (inited s = false → discoverStream b env s = (s, [])) ∧
    (inited s = true →
      (s.stream = none → s.connectedSinkInput = PA_INVALID_INDEX) →
      (∀ e ∈ s.sinkInputs, e.2.idx ≠ PA_INVALID_INDEX) →
      env.newStream ≠ none →
      (discoverStream b env s).1.sinkInputs = s.sinkInputs ∧
      (discoverStream b env s).1.clients = s.clients ∧
      ((discoverStream b env s).1.connectedSinkInput = PA_INVALID_INDEX ∨
        ∃ e ∈ (discoverStream b env s).1.sinkInputs,
          e.2.idx = (discoverStream b env s).1.connectedSinkInput ∧ e.2.corked = false ∧
          QHash.contains (discoverStream b env s).1.clients e.2.clientIdx = true) ∧
      ((discoverStream b env s).1.stream ≠ none →
        ∃ e ∈ s.sinkInputs, eligibleSinkInput s.clients e.2 = true ∧
          e.2.idx = (discoverStream b env s).1.connectedSinkInput ∧
          (discoverStream b env s).1.connectedSinkInput ≠ PA_INVALID_INDEX ∧
          streamNames (discoverStream b env s).2 =
            [(QHash.value ({} : Client) s.clients e.2.clientIdx).name] ∧
          ((s.connectedSinkInput = e.2.idx ∧ (discoverStream b env s).1 = s) ∨
           (s.connectedSinkInput ≠ e.2.idx ∧ 0 ≤ env.monitorRet ∧ 0 ≤ env.connectRet ∧
              (discoverStream b env s).1.stream = env.newStream))) ∧
      ((discoverStream b env s).1.stream = none →
        (discoverStream b env s).1.connectedSinkInput = PA_INVALID_INDEX ∧
        streamNames (discoverStream b env s).2 = [""]) ∧
      ((∀ e ∈ s.sinkInputs, eligibleSinkInput s.clients e.2 = false) →
        (discoverStream b env s).1.stream = none) ∧
      ((∃ e ∈ s.sinkInputs, eligibleSinkInput s.clients e.2 = true) →
        0 ≤ env.monitorRet → 0 ≤ env.connectRet →
        (discoverStream b env s).1.stream ≠ none)) := by
  refine ⟨discoverStream_not_inited b env s, fun hi hpair hidx hnew => ?_⟩
  obtain ⟨-, -, f3, f4⟩ := discoverStream_frame b env s
  obtain ⟨-, -, p3, -, -⟩ := stopRecordStream_frame b s
  have pc := stopRecordStream_connectedSinkInput b s
  refine ⟨f4, f3, ?_⟩
  rcases discoverStream_cases b env s hi with ⟨h1, h2, h3⟩ | ⟨e, he, hel, hc⟩
  · have hst : (discoverStream b env s).1.stream = none := by
      rw [h2]
      exact p3
    have hconn : (discoverStream b env s).1.connectedSinkInput = PA_INVALID_INDEX := by
      rw [h2, pc]
      cases hs : s.stream with
      | none => simpa using hpair hs
      | some v => simp
    refine ⟨Or.inl hconn, fun hne => absurd hst hne, fun _ => ⟨hconn, h3⟩, fun _ => hst, ?_⟩
    rintro ⟨e0, he0, hel0⟩
    rw [h1 e0 he0] at hel0
    cases hel0
  · have hprop : e.2.corked = false ∧ QHash.contains s.clients e.2.clientIdx = true := by
      simpa [eligibleSinkInput] using hel
    have hvalid : e.2.idx ≠ PA_INVALID_INDEX := hidx e he
    have he2 : e ∈ (discoverStream b env s).1.sinkInputs := by
      rw [f4]
      exact he
    have hcl : QHash.contains (discoverStream b env s).1.clients e.2.clientIdx = true := by
      rw [f3]
      exact hprop.2
    rcases hc with ⟨k1, k2, k3⟩ | ⟨k1, km, kc, k4, k5, k6⟩ | ⟨k1, kf, k3, k5, k6⟩
    · have hsome : s.stream ≠ none := by
        intro hs
        exact hvalid (k1.symm.trans (hpair hs))
      have hconn : (discoverStream b env s).1.connectedSinkInput = e.2.idx := by
        rw [k2]
        exact k1
      have hst : (discoverStream b env s).1.stream ≠ none := by
        rw [k2]
        exact hsome
      refine ⟨Or.inr ⟨e, he2, hconn.symm, hprop.1, hcl⟩, fun _ => ?_,
        fun hnone => absurd hnone hst, fun hno => ?_, fun _ _ _ => hst⟩
      · exact ⟨e, he, hel, hconn.symm, by rw [hconn]; exact hvalid, k3, Or.inl ⟨k1, k2⟩⟩
      · rw [hno e he] at hel
        cases hel
    · have hst : (discoverStream b env s).1.stream ≠ none := by
        rw [k5]
        exact hnew
      refine ⟨Or.inr ⟨e, he2, k4.symm, hprop.1, hcl⟩, fun _ => ?_,
        fun hnone => absurd hnone hst, fun hno => ?_, fun _ _ _ => hst⟩
      · exact ⟨e, he, hel, k4.symm, by rw [k4]; exact hvalid, k6, Or.inr ⟨k1, km, kc, k5⟩⟩
      · rw [hno e he] at hel
        cases hel
    · refine ⟨Or.inl k3, fun hne => absurd k5 hne, fun _ => ⟨k3, k6⟩, fun _ => k5, ?_⟩
      intro _ hm hcn
      rcases kf with kf | kf <;> omega

/-- Witness of C14: the initial state is not inited and nothing happens; in the
recording example state (stream 4 on sink input 7 of client "player") the
recording stays connected and the name "player" is sent; in the idle example
state (no sink input) the empty name is sent. -/
theorem C14_discoverStream_witness :
    inited initial = false ∧
    discoverStream desktopBuild ⟨some 9, 0, 0⟩ initial = (initial, []) ∧
    inited recordingState = true ∧
    (recordingState.stream = none → recordingState.connectedSinkInput = PA_INVALID_INDEX) ∧
    (∀ e ∈ recordingState.sinkInputs, e.2.idx ≠ PA_INVALID_INDEX) ∧
    (StreamEnv.mk (some 9) 0 0).newStream ≠ none ∧
    (discoverStream desktopBuild ⟨some 9, 0, 0⟩ recordingState).1.stream ≠ none ∧
    (∃ e ∈ recordingState.sinkInputs, eligibleSinkInput recordingState.clients e.2 = true ∧
      e.2.idx = (discoverStream desktopBuild ⟨some 9, 0, 0⟩
        recordingState).1.connectedSinkInput ∧
      (discoverStream desktopBuild ⟨some 9, 0, 0⟩ recordingState).1.connectedSinkInput ≠
        PA_INVALID_INDEX ∧
      streamNames (discoverStream desktopBuild ⟨some 9, 0, 0⟩ recordingState).2 =
        [(QHash.value ({} : Client) recordingState.clients e.2.clientIdx).name] ∧
      ((recordingState.connectedSinkInput = e.2.idx ∧
          (discoverStream desktopBuild ⟨some 9, 0, 0⟩ recordingState).1 = recordingState) ∨
       (recordingState.connectedSinkInput ≠ e.2.idx ∧
          0 ≤ (StreamEnv.mk (some 9) 0 0).monitorRet ∧
          0 ≤ (StreamEnv.mk (some 9) 0 0).connectRet ∧
          (discoverStream desktopBuild ⟨some 9, 0, 0⟩ recordingState).1.stream =
            (StreamEnv.mk (some 9) 0 0).newStream))) ∧
    streamNames (discoverStream desktopBuild ⟨some 9, 0, 0⟩ recordingState).2 = ["player"] ∧
    inited idleState = true ∧
    (discoverStream desktopBuild ⟨some 9, 0, 0⟩ idleState).1.stream = none ∧
    streamNames (discoverStream desktopBuild ⟨some 9, 0, 0⟩ idleState).2 = [""] :=
  ⟨by decide,
    (C14_discoverStream desktopBuild ⟨some 9, 0, 0⟩ initial).1 (by decide),
    by decide, by decide, by decide, by decide, by decide,
    ((C14_discoverStream desktopBuild ⟨some 9, 0, 0⟩ recordingState).2 (by decide) (by decide)
      (by decide) (by decide)).2.2.2.1 (by decide),
    by decide, by decide, by decide,
    (((C14_discoverStream desktopBuild ⟨some 9, 0, 0⟩ idleState).2 (by decide) (by decide)
      (by decide) (by decide)).2.2.2.2.1 (by decide)).2⟩

/-- C15.  Take an inited state that the source reaches from the initial state
by lifecycle operations and by the callbacks the main loop dispatches, libpulse
handing out a non-null stream at every `pa_stream_new` (it aborts in the calls
that follow on a null stream), and an index `idx` other than `PA_INVALID_INDEX`.
After `subscriptionCallback` receives a SINK_INPUT REMOVE event for `idx`,
`sinkInputs` no longer contains `idx`, `clients` is unchanged and
`connectedSinkInput` differs from `idx`: either the recording is stopped
(`stream` null, `connectedSinkInput` is `PA_INVALID_INDEX`) or
`connectedSinkInput` is the index of another sink input in `sinkInputs` that is
not corked and whose client is known.  In every state, a CLIENT REMOVE event
removes `idx` from `clients` and changes nothing else. -/
theorem C15_removed_sink_input_not_connected (b : Build) (ops : List Op)
    (cbs : List Callback) (env : StreamEnv) (t idx : Nat)
    (hops : ops.all Op.streamOk = true) (hcbs : cbs.all Callback.streamOk = true)
    (hinited : inited (reachedState b ops cbs) = true) (hidx : idx ≠ PA_INVALID_INDEX) :
    ((t &&& PA_SUBSCRIPTION_EVENT_FACILITY_MASK = PA_SUBSCRIPTION_EVENT_SINK_INPUT ∧
        t &&& PA_SUBSCRIPTION_EVENT_TYPE_MASK = PA_SUBSCRIPTION_EVENT_REMOVE) →
      QHash.contains
        (subscriptionCallback b env t idx (reachedState b ops cbs)).1.sinkInputs idx = false ∧
      (subscriptionCallback b env t idx (reachedState b ops cbs)).1.connectedSinkInput ≠ idx ∧
      (subscriptionCallback b env t idx (reachedState b ops cbs)).1.clients =
        (reachedState b ops cbs).clients ∧
      (((subscriptionCallback b env t idx (reachedState b ops cbs)).1.connectedSinkInput =
            PA_INVALID_INDEX ∧
          (subscriptionCallback b env t idx (reachedState b ops cbs)).1.stream = none) ∨
        ∃ e ∈ (subscriptionCallback b env t idx (reachedState b ops cbs)).1.sinkInputs,
          eligibleSinkInput (reachedState b ops cbs).clients e.2 = true ∧ e.1 ≠ idx ∧
          e.2.idx =
            (subscriptionCallback b env t idx (reachedState b ops cbs)).1.connectedSinkInput)) ∧
    (∀ s : PulseAudioSource,
      (t &&& PA_SUBSCRIPTION_EVENT_FACILITY_MASK = PA_SUBSCRIPTION_EVENT_CLIENT ∧
        t &&& PA_SUBSCRIPTION_EVENT_TYPE_MASK = PA_SUBSCRIPTION_EVENT_REMOVE) →
      subscriptionCallback b env t idx s =
        ({ s with clients := QHash.remove s.clients idx }, []) ∧
      QHash.contains (subscriptionCallback b env t idx s).1.clients idx = false ∧
      (subscriptionCallback b env t idx s).1.stream = s.stream ∧
      (subscriptionCallback b env t idx s).1.connectedSinkInput = s.connectedSinkInput ∧
      (subscriptionCallback b env t idx s).1.sinkInputs = s.sinkInputs) := by
  refine ⟨?_, ?_⟩
  · rintro ⟨h1, h2⟩
    exact sinkInputRemove_recordInv b env t idx _
      (reachedState_recordInv b ops cbs hops hcbs) hinited hidx h1 h2
  · rintro s ⟨h1, h2⟩
    have hc := clientRemove_effect b env t idx s h1 h2
    rw [hc]
    exact ⟨rfl, QHash.contains_remove _ _, rfl, rfl, rfl⟩

/-- Witness of C15: after a start and the callbacks that announce client 5 with
sink inputs 7 and 8 and start recording 7, the removal of sink input 7 moves the
recording to sink input 8; and the removal of client 5 in the recording example
state leaves the stream connected. -/
theorem C15_removed_sink_input_not_connected_witness :
    [Op.start goodInit].all Op.streamOk = true ∧
    twoInputsCallbacks.all Callback.streamOk = true ∧
    inited (reachedState desktopBuild [Op.start goodInit] twoInputsCallbacks) = true ∧
    (reachedState desktopBuild [Op.start goodInit] twoInputsCallbacks).connectedSinkInput = 7 ∧
    (7 : Nat) ≠ PA_INVALID_INDEX ∧
    (sinkInputRemoveEvent &&& PA_SUBSCRIPTION_EVENT_FACILITY_MASK =
        PA_SUBSCRIPTION_EVENT_SINK_INPUT ∧
      sinkInputRemoveEvent &&& PA_SUBSCRIPTION_EVENT_TYPE_MASK =
        PA_SUBSCRIPTION_EVENT_REMOVE) ∧
    (subscriptionCallback desktopBuild ⟨some 10, 0, 0⟩ sinkInputRemoveEvent 7
      (reachedState desktopBuild [Op.start goodInit]
        twoInputsCallbacks)).1.connectedSinkInput ≠ 7 ∧
    (subscriptionCallback desktopBuild ⟨some 10, 0, 0⟩ sinkInputRemoveEvent 7
      (reachedState desktopBuild [Op.start goodInit]
        twoInputsCallbacks)).1.connectedSinkInput = 8 ∧
    (clientRemoveEvent &&& PA_SUBSCRIPTION_EVENT_FACILITY_MASK =
        PA_SUBSCRIPTION_EVENT_CLIENT ∧
      clientRemoveEvent &&& PA_SUBSCRIPTION_EVENT_TYPE_MASK =
        PA_SUBSCRIPTION_EVENT_REMOVE) ∧
    (subscriptionCallback desktopBuild ⟨some 10, 0, 0⟩ clientRemoveEvent 5
      recordingState).1.stream = recordingState.stream :=
  ⟨by decide, by decide, by decide, by decide, by decide, by decide,
    ((C15_removed_sink_input_not_connected desktopBuild [Op.start goodInit] twoInputsCallbacks
      ⟨some 10, 0, 0⟩ sinkInputRemoveEvent 7 (by decide) (by decide) (by decide)
      (by decide)).1 (by decide)).2.1,
    by decide, by decide,
    ((C15_removed_sink_input_not_connected desktopBuild [Op.start goodInit] twoInputsCallbacks
      ⟨some 10, 0, 0⟩ clientRemoveEvent 5 (by decide) (by decide) (by decide)
      (by decide)).2 recordingState (by decide)).2.2.1⟩

end PulseAudioSource

end Jupii
